/-
  Verification of the procedural icosphere-based asteroid mesh generator
  (`mesh.cpp`, namespaces `demo` and `bs`) against its specification.

  Shallow embedding conventions:
  * `float` scalars are modelled exactly over an arbitrary `Field α`
    (instantiated at `ℚ` for executable checks and at `ℝ` for the actual
    icosahedron constants, which involve square roots).  `std::sqrt` is
    passed explicitly as a function parameter `sqrt : α → α`
    (instantiated with `Real.sqrt` over `ℝ`).
  * `UINT32` vertex/index counts are modelled as `Nat` (all counts in the
    pipeline stay far below `2^32`, so the `static_cast` truncations in the
    source are the identity in the modelled range).
  * `std::map<Edge, IndexType>` is modelled as an association list; the
    source only ever uses `find` and `insert`, so iteration order is
    irrelevant and the association-list behaviour coincides.
  * Out-of-range `std::vector` reads (undefined behaviour in C++, never
    exercised by the pipeline, which only indexes in range) are modelled
    with `List.getD` and a zero default.
-/
import Mathlib

/-- A 3-component vector, mirroring `bs::Vector3` (used for `Vertex` and
`Normal` in `mesh.cpp`). -/
structure V3 (α : Type) where
  x : α
  y : α
  z : α
deriving DecidableEq

/-- A 2-component vector, mirroring `bs::Vector2` (used for UVs). -/
structure V2 (α : Type) where
  x : α
  y : α
deriving DecidableEq

/-- The `demo::Mesh` struct: vertex positions, normals, a flat triangle-list
index buffer and UV coordinates. -/
structure Mesh (α : Type) where
  vertices : List (V3 α)
  normals  : List (V3 α)
  indices  : List Nat
  uv       : List (V2 α)
deriving DecidableEq

/-- The hard-coded icosahedron triangle list of `CreateIcosahedron`
(20 triangles, 60 indices). -/
def icosahedronIndices : List Nat :=
  [0, 5, 11,  0, 1, 5,  0, 7, 1,  0, 10, 7,  0, 11, 10,
   1, 9, 5,  5, 4, 11,  11, 2, 10,  10, 6, 7,  7, 8, 1,
   3, 4, 9,  3, 2, 4,  3, 6, 2,  3, 8, 6,  3, 9, 8,
   4, 5, 9,  2, 11, 4,  6, 10, 2,  8, 7, 6,  9, 1, 8]

/-- Model of `demo::CreateIcosahedron`: the canonical 12-vertex, 20-triangle solid.
The source fixes `a = sqrt(2/(5-sqrt 5))` and `b = sqrt(2/(5+sqrt 5))`;
they are taken as parameters here so the construction lives over any field
(the real values are irrational).  `normals` is resized to the vertex count
(source: default-constructed placeholders; modelled as zeros — they are
never read before being overwritten).  Note `Mesh::clear()` does not clear
`uv`, but the function is only ever called on fresh meshes, where `uv` is
empty. -/
def CreateIcosahedron {α : Type} [Field α] (a b : α) : Mesh α :=
  { vertices :=
      [⟨-b, a, 0⟩, ⟨b, a, 0⟩, ⟨-b, -a, 0⟩, ⟨b, -a, 0⟩,
       ⟨0, -b, a⟩, ⟨0, b, a⟩, ⟨0, -b, -a⟩, ⟨0, b, -a⟩,
       ⟨a, 0, -b⟩, ⟨a, 0, b⟩, ⟨-a, 0, -b⟩, ⟨-a, 0, b⟩]
    normals := List.replicate 12 ⟨0, 0, 0⟩
    indices := icosahedronIndices
    uv := [] }

/-- The `demo::Edge` constructor: stores the pair with the lower index
first (`if (v0 > v1) std::swap(v0, v1)`). -/
def canonEdge (i j : Nat) : Nat × Nat :=
  if j < i then (j, i) else (i, j)

/-- The midpoint vertex computed by `demo::EdgeMidpoint` when an edge is
seen for the first time: the component-wise average `(a + b) * 0.5f`. -/
def midValue {α : Type} [Field α] (vs : List (V3 α)) (e : Nat × Nat) : V3 α :=
  let va := vs.getD e.1 ⟨0, 0, 0⟩
  let vb := vs.getD e.2 ⟨0, 0, 0⟩
  ⟨(va.x + vb.x) * (1 / 2), (va.y + vb.y) * (1 / 2), (va.z + vb.z) * (1 / 2)⟩

/-- Model of `demo::EdgeMidpoint`: look the canonical edge up in the midpoint map;
on a miss, append the midpoint vertex and record its index
(`mesh->vertices.size()` before the push).  Returns the midpoint's index
together with the updated vertex pool and map. -/
def EdgeMidpoint {α : Type} [Field α] (verts : List (V3 α))
    (mids : List ((Nat × Nat) × Nat)) (e : Nat × Nat) :
    Nat × List (V3 α) × List ((Nat × Nat) × Nat) :=
  match mids.lookup e with
  | some i => (i, verts, mids)
  | none => (verts.length, verts ++ [midValue verts e], mids ++ [(e, verts.length)])

/-- Groups a flat index list into triangles, dropping a trailing remainder —
the source loop runs for `indices.size() / 3` triangles (an `assert`
checks divisibility by 3 in debug builds). -/
def triangleList : List Nat → List (Nat × Nat × Nat)
  | a :: b :: c :: r => (a, b, c) :: triangleList r
  | _ => []

/-- One iteration of the `SubdivideInPlace` triangle loop: three
`EdgeMidpoint` calls (edges (t0,t1), (t1,t2), (t2,t0)) followed by emission
of the four child triangles
`(t0,m0,m2), (m0,t1,m1), (m0,m1,m2), (m2,m1,t2)`. -/
def subdivTriStep {α : Type} [Field α]
    (s : List (V3 α) × List ((Nat × Nat) × Nat) × List Nat)
    (t : Nat × Nat × Nat) :
    List (V3 α) × List ((Nat × Nat) × Nat) × List Nat :=
  let r0 := EdgeMidpoint s.1 s.2.1 (canonEdge t.1 t.2.1)
  let r1 := EdgeMidpoint r0.2.1 r0.2.2 (canonEdge t.2.1 t.2.2)
  let r2 := EdgeMidpoint r1.2.1 r1.2.2 (canonEdge t.2.2 t.1)
  (r2.2.1, r2.2.2,
    s.2.2 ++ [t.1, r0.1, r2.1, r0.1, t.2.1, r1.1, r0.1, r1.1, r2.1, r2.1, r1.1, t.2.2])

/-- Model of `demo::SubdivideInPlace`: splits each triangle into four using a fresh
midpoint map, swapping the new index list in at the end.  Normals and UVs
are untouched by the source. -/
def SubdivideInPlace {α : Type} [Field α] (m : Mesh α) : Mesh α :=
  let s := (triangleList m.indices).foldl subdivTriStep
    (m.vertices, ([] : List ((Nat × Nat) × Nat)), ([] : List Nat))
  { m with vertices := s.1, indices := s.2.2 }

/-- Index-level projection of `EdgeMidpoint`: the returned index, the new
vertex count and the new map depend only on the current vertex count, not
on the vertex values. -/
def natEdgeMid (V : Nat) (mids : List ((Nat × Nat) × Nat)) (e : Nat × Nat) :
    Nat × Nat × List ((Nat × Nat) × Nat) :=
  match mids.lookup e with
  | some i => (i, V, mids)
  | none => (V, V + 1, mids ++ [(e, V)])

/-- Index-level projection of `subdivTriStep` (state: vertex count,
midpoint map, emitted indices). -/
def natTriStep (s : Nat × List ((Nat × Nat) × Nat) × List Nat)
    (t : Nat × Nat × Nat) : Nat × List ((Nat × Nat) × Nat) × List Nat :=
  let r0 := natEdgeMid s.1 s.2.1 (canonEdge t.1 t.2.1)
  let r1 := natEdgeMid r0.2.1 r0.2.2 (canonEdge t.2.1 t.2.2)
  let r2 := natEdgeMid r1.2.1 r1.2.2 (canonEdge t.2.2 t.1)
  (r2.2.1, r2.2.2,
    s.2.2 ++ [t.1, r0.1, r2.1, r0.1, t.2.1, r1.1, r0.1, r1.1, r2.1, r2.1, r1.1, t.2.2])

/-- Index-level projection of `SubdivideInPlace`: from an index list and a
starting vertex count, the new index list and new vertex count.  This is
executable on `Nat` data alone. -/
def natSubdiv (idxs : List Nat) (V0 : Nat) : List Nat × Nat :=
  let s := (triangleList idxs).foldl natTriStep (V0, [], [])
  (s.2.2, s.1)

/-- Squared Euclidean norm, written exactly as the source computes it
(`v.x*v.x + v.y*v.y + v.z*v.z`). -/
def normSq {α : Type} [Field α] (v : V3 α) : α :=
  v.x * v.x + v.y * v.y + v.z * v.z

/-- Model of `demo::SpherifyInPlace`: scales every vertex by
`radius / sqrt(|v|²)`.  There is no guard against a zero-norm vertex: the
division happens unconditionally (in IEEE arithmetic a zero vertex yields
`inf`/NaN; here Lean's division-by-zero convention applies — either way
the function silently produces a vertex, it never signals an error). -/
def SpherifyInPlace {α : Type} [Field α] (sqrt : α → α) (radius : α)
    (m : Mesh α) : Mesh α :=
  { m with vertices := m.vertices.map (fun v =>
      let n := radius / sqrt (v.x * v.x + v.y * v.y + v.z * v.z)
      ⟨v.x * n, v.y * n, v.z * n⟩) }

/-- Fail-fast spherifier following the spec's words (§7 DegenerateVertex:
"a vertex with zero distance from the origin fed into the spherifier …
should be treated as a programmer error (fail fast) rather than silently
clamped").  This is the claim-side reference model, to be compared with
the source's `SpherifyInPlace`. -/
def SpherifyChecked {α : Type} [Field α] [DecidableEq α] (sqrt : α → α)
    (radius : α) (m : Mesh α) : Option (Mesh α) :=
  if ∃ v ∈ m.vertices, v.x * v.x + v.y * v.y + v.z * v.z = 0 then none
  else some (SpherifyInPlace sqrt radius m)

/-- One triangle of the accumulation loop in
`demo::ComputeAvgNormalsInPlace`: the unnormalized face normal
`cross(v2-v1, v3-v1)` is added into the three incident vertex normals,
sequentially (so repeated indices see previous additions, as the C++
pointer writes do).  Out-of-range writes (UB in C++, never exercised) are
`List.set` no-ops. -/
def accumNormal {α : Type} [Field α] (vs : List (V3 α))
    (ns : List (V3 α)) (t : Nat × Nat × Nat) : List (V3 α) :=
  let v1 := vs.getD t.1 ⟨0, 0, 0⟩
  let v2 := vs.getD t.2.1 ⟨0, 0, 0⟩
  let v3 := vs.getD t.2.2 ⟨0, 0, 0⟩
  let ux := v2.x - v1.x
  let uy := v2.y - v1.y
  let uz := v2.z - v1.z
  let vx := v3.x - v1.x
  let vy := v3.y - v1.y
  let vz := v3.z - v1.z
  let nx := uy * vz - uz * vy
  let ny := uz * vx - ux * vz
  let nz := ux * vy - uy * vx
  let add := fun (ns' : List (V3 α)) (i : Nat) =>
    let old := ns'.getD i ⟨0, 0, 0⟩
    ns'.set i ⟨old.x + nx, old.y + ny, old.z + nz⟩
  add (add (add ns t.1) t.2.1) t.2.2

/-- Model of `demo::ComputeAvgNormalsInPlace`: zero all normals, accumulate
area-weighted face normals per triangle, then normalize each by
`1 / sqrt(|n|²)`.  Vertex positions are untouched. -/
def ComputeAvgNormalsInPlace {α : Type} [Field α] (sqrt : α → α)
    (m : Mesh α) : Mesh α :=
  let zeroed : List (V3 α) := m.normals.map (fun _ => ⟨0, 0, 0⟩)
  let acc := (triangleList m.indices).foldl (accumNormal m.vertices) zeroed
  { m with normals := acc.map (fun v =>
      let n := 1 / sqrt (v.x * v.x + v.y * v.y + v.z * v.z)
      ⟨v.x * n, v.y * n, v.z * n⟩) }

/-- Model of `demo::CreateUVMap`: the placeholder planar projection
`uv[i] = (vertices[i].x, vertices[i].y)`. -/
def CreateUVMap {α : Type} [Field α] (m : Mesh α) : Mesh α :=
  { m with uv := m.vertices.map (fun v => ⟨v.x, v.y⟩) }

/-- One iteration of the `CreateGeospheres` loop (state: working mesh and
the accumulated combined vertices / normals / indices / offset table):
record the current combined index count as the next offset, subdivide the
working mesh, append its (whole) vertex pool to the combined pool, resize
the combined normals (default entries, modelled as zeros), and append its
indices shifted by the previous combined vertex count. -/
def geoStep {α : Type} [Field α]
    (s : Mesh α × List (V3 α) × List (V3 α) × List Nat × List Nat)
    (_i : Nat) :
    Mesh α × List (V3 α) × List (V3 α) × List Nat × List Nat :=
  let w' := SubdivideInPlace s.1
  let vOff := s.2.1.length
  let cV' := s.2.1 ++ w'.vertices
  (w', cV',
   s.2.2.1 ++ List.replicate (cV'.length - s.2.2.1.length) ⟨0, 0, 0⟩,
   s.2.2.2.1 ++ w'.indices.map (· + vOff),
   s.2.2.2.2 ++ [s.2.2.2.1.length])

/-- Model of `demo::CreateGeospheres` (radius left at its default 1): build the
icosahedron, run the subdivision/accumulation loop `L` times, record the
final offset, call `SpherifyInPlace` on the working mesh, and then swap
the accumulated (combined, multi-level) buffers into the output mesh.
NOTE (faithful to the source): the spherified working mesh is discarded by
the swap — the returned vertex pool is the accumulated buffer, which was
filled *before* the spherify call.  Returns the output mesh and the
`subdivLevels + 2` index offsets. -/
def CreateGeospheres {α : Type} [Field α] (a b : α) (sqrt : α → α)
    (L : Nat) : Mesh α × List Nat :=
  let ico := CreateIcosahedron a b
  let s := (List.range L).foldl geoStep
    (ico, ico.vertices, ico.normals, ico.indices, [0])
  let offs := s.2.2.2.2 ++ [s.2.2.2.1.length]
  let _spherified := SpherifyInPlace sqrt 1 s.1
  ({ vertices := s.2.1, normals := s.2.2.1, indices := s.2.2.2.1, uv := [] },
   offs)

/-- The per-vertex noise displacement of
`demo::CreateAsteroidsFromGeospheres`:
`radius = noise(persistence; v*0.5, offset) * 0.9 + 0.3; v *= radius`.
`noise` abstracts `NoiseOctaves<4>` (external `noise.h`, consumed through
the boundary contract of spec §6): first argument the per-instance
persistence, then the three scaled coordinates, then the per-instance
noise offset. -/
def displaceVertex {α : Type} [Field α] (noise : α → α → α → α → α → α)
    (pers noff : α) (v : V3 α) : V3 α :=
  let r := noise pers (v.x * (1 / 2)) (v.y * (1 / 2)) (v.z * (1 / 2)) noff
  let r' := r * (9 / 10) + 3 / 10
  ⟨v.x * r', v.y * r', v.z * r'⟩

/-- Model of `demo::CreateAsteroidsFromGeospheres`.  The leading
`assert(subdivLevelCount <= meshInstanceCount)` is modelled as `none`
(debug-build abort).  The `std::mt19937` generator together with the two
distribution objects is modelled by the induced per-instance draw stream
`draws : Nat → α × α` (instance `m` draws `(draws m).1` from
`normal_distribution(0.95, 0.04)` for the noise persistence and
`(draws m).2` from `uniform_real_distribution(0, 10000)` for the noise
offset, in that order, advancing one shared generator instance by
instance).  Per instance: copy the combined base mesh, displace every
vertex, recompute average normals, and append vertices/normals to the
output pool.  The single shared index buffer is moved to the output, and
`CreateUVMap` finally derives UVs from the displaced positions.  Returns
the output mesh, the offset table and `vertexCountPerMesh`.  The loop
body (copy the combined base mesh, displace every vertex, recompute
average normals) is factored out as `asteroidPiece`. -/
def asteroidPiece {α : Type} [Field α] (sqrt : α → α)
    (noise : α → α → α → α → α → α) (baseMesh : Mesh α) (draw : α × α) :
    List (V3 α) × List (V3 α) :=
  let nm := ComputeAvgNormalsInPlace sqrt
    { baseMesh with
      vertices := baseMesh.vertices.map (displaceVertex noise draw.1 draw.2) }
  (nm.vertices, nm.normals)

/-- The assembled pipeline; see the doc comment above `asteroidPiece`. -/
def CreateAsteroidsFromGeospheres {α : Type} [Field α] (a b : α)
    (sqrt : α → α) (noise : α → α → α → α → α → α)
    (L inst : Nat) (draws : Nat → α × α) :
    Option (Mesh α × List Nat × Nat) :=
  if L ≤ inst then
    some (CreateUVMap
      { vertices := (((List.range inst).map (fun m =>
          asteroidPiece sqrt noise (CreateGeospheres a b sqrt L).1 (draws m))).map
            Prod.fst).flatten,
        normals := (((List.range inst).map (fun m =>
          asteroidPiece sqrt noise (CreateGeospheres a b sqrt L).1 (draws m))).map
            Prod.snd).flatten,
        indices := (CreateGeospheres a b sqrt L).1.indices,
        uv := [] },
      (CreateGeospheres a b sqrt L).2,
      (CreateGeospheres a b sqrt L).1.vertices.length)
  else none

/-
  The `bs` side: `makeMeshes` packs each instance into an interleaved GPU
  vertex buffer.  The buffer is modelled at 4-byte-word granularity as a
  total function `Nat → α` (each word holds one `float`).  The declared
  layout (`VertexDataDesc`: FLOAT3 position, FLOAT3 normal, FLOAT3
  tangent, FLOAT2 texcoord) gives an 11-word (44-byte) stride with element
  word offsets 0 / 3 / 6 / 9.
-/

/-- Interleaved vertex buffer at 4-byte-word granularity. -/
def VBuf (α : Type) : Type := Nat → α

/-- Write one word. -/
def bufWrite {α : Type} (b : VBuf α) (i : Nat) (v : α) : VBuf α :=
  fun j => if j = i then v else b j

/-- Write consecutive words starting at `i` (a `memcpy`). -/
def bufWriteList {α : Type} (b : VBuf α) (i : Nat) : List α → VBuf α
  | [] => b
  | v :: vs => bufWriteList (bufWrite b i v) (i + 1) vs

/-- Words per vertex of the declared layout (3+3+3+2 floats = 44 bytes). -/
def vertexStrideWords : Nat := 11

/-- Word offset of the FLOAT3 position element. -/
def posOffW : Nat := 0

/-- Word offset of the FLOAT3 normal element. -/
def normOffW : Nat := 3

/-- Word offset of the FLOAT3 tangent element. -/
def tanOffW : Nat := 6

/-- Word offset of the FLOAT2 texcoord element. -/
def uvOffW : Nat := 9

/-- Model of `MeshData::setVertexData` for a FLOAT3 element: copy `V` entries from
`src` (starting at `vOff`) into the element's interleaved slots. -/
def setVertexData3 {α : Type} [Field α] (b : VBuf α) (elemOff V vOff : Nat)
    (src : List (V3 α)) : VBuf α :=
  (List.range V).foldl (fun b' k =>
    let v := src.getD (vOff + k) ⟨0, 0, 0⟩
    bufWriteList b' (k * vertexStrideWords + elemOff) [v.x, v.y, v.z]) b

/-- Model of `MeshData::setVertexData` for a FLOAT2 element. -/
def setVertexData2 {α : Type} [Field α] (b : VBuf α) (elemOff V vOff : Nat)
    (src : List (V2 α)) : VBuf α :=
  (List.range V).foldl (fun b' k =>
    let v := src.getD (vOff + k) ⟨0, 0⟩
    bufWriteList b' (k * vertexStrideWords + elemOff) [v.x, v.y]) b

/-- Model of `bs::Vector3::cross`. -/
def crossV3 {α : Type} [Field α] (u v : V3 α) : V3 α :=
  ⟨u.y * v.z - u.z * v.y, u.z * v.x - u.x * v.z, u.x * v.y - u.y * v.x⟩

/-- Model of `bs::Vector3::dot`. -/
def dotV3 {α : Type} [Field α] (u v : V3 α) : α :=
  u.x * v.x + u.y * v.y + u.z * v.z

/-- The packing loop of `bs::generateTangents` (with `vertexOffset = 0`,
as `CalculateTangents` passes).  `MeshUtility::calculateTangents` is
external engine code; its per-vertex outputs are abstracted as the input
lists `tT` (tangents) and `tB` (bitangents).  For each vertex the normal
is read back from the interleaved buffer, the handedness sign is
`dot(cross(normal, tangent), bitangent) > 0 ? 1 : -1`, and then —
exactly as the source's `memcpy(..., &packedTangent, sizeof(Vector4))` —
FOUR words `[t.x, t.y, t.z, sign]` are written at the tangent element's
word offset, although the declared tangent element is only FLOAT3 (three
words) wide. -/
def generateTangents {α : Type} [LinearOrderedField α] (b : VBuf α)
    (V : Nat) (tT tB : List (V3 α)) : VBuf α :=
  (List.range V).foldl (fun b' k =>
    let n : V3 α := ⟨b' (k * vertexStrideWords + normOffW),
                     b' (k * vertexStrideWords + normOffW + 1),
                     b' (k * vertexStrideWords + normOffW + 2)⟩
    let t := tT.getD k ⟨0, 0, 0⟩
    let bt := tB.getD k ⟨0, 0, 0⟩
    let s := dotV3 (crossV3 n t) bt
    bufWriteList b' (k * vertexStrideWords + tanOffW)
      [t.x, t.y, t.z, if 0 < s then 1 else -1]) b

/-- The per-instance `MeshData` construction inside `bs::makeMeshes`:
write positions, normals and texcoords of the instance's vertex range into
the interleaved buffer (the `setVertexData` calls), then run the tangent
pass (`CalculateTangents` / `generateTangents`).  The fresh buffer is
modelled as zero-initialized. -/
def packInstance {α : Type} [LinearOrderedField α] (V vOff : Nat)
    (verts norms : List (V3 α)) (uv : List (V2 α))
    (tT tB : List (V3 α)) : VBuf α :=
  let b0 : VBuf α := fun _ => 0
  let b1 := setVertexData3 b0 posOffW V vOff verts
  let b2 := setVertexData3 b1 normOffW V vOff norms
  let b3 := setVertexData2 b2 uvOffW V vOff uv
  generateTangents b3 V tT tB

/-- Model of `bs::makeMeshes`: run the asteroid pipeline (the source seeds the
generator with 100; the induced draw stream is `draws`), then pack one
(vertex buffer, index buffer) pair per instance.  Instance `i` takes the
vertex range starting at `i * vertexCountPerMesh` and copies the index
range of subdivision level `j = subdivCount` — `indices[offset[j] ..
offset[j] + (offset[j+1] - offset[j]))`, the same slice for every
instance — verbatim.  `tb i` abstracts the `MeshUtility` tangent /
bitangent outputs for instance `i`. -/
def makeMeshes {α : Type} [LinearOrderedField α] (a b : α)
    (sqrt : α → α) (noise : α → α → α → α → α → α) (draws : Nat → α × α)
    (tb : Nat → List (V3 α) × List (V3 α))
    (instCount subdivCount : Nat) : Option (List (VBuf α × List Nat)) :=
  match CreateAsteroidsFromGeospheres a b sqrt noise subdivCount instCount draws with
  | none => none
  | some (mesh, offs, vcpm) =>
    some ((List.range instCount).map (fun i =>
      let vOff := i * vcpm
      let numIndices := offs.getD (subdivCount + 1) 0 - offs.getD subdivCount 0
      (packInstance vcpm vOff mesh.vertices mesh.normals mesh.uv (tb i).1 (tb i).2,
       (mesh.indices.drop (offs.getD subdivCount 0)).take numIndices)))

/-
  Specification-side description of one subdivision pass, used to state
  the subdivider claims: edges in processing order, first-seen
  deduplication, and the four child triangles per input triangle.
-/

/-- The three canonical edges of a triangle, in the order the subdivision
loop processes them. -/
def triEdges (t : Nat × Nat × Nat) : List (Nat × Nat) :=
  [canonEdge t.1 t.2.1, canonEdge t.2.1 t.2.2, canonEdge t.2.2 t.1]

/-- All canonical edges of an index list, triangle by triangle, in
processing order (with repetitions). -/
def edgeStream (idxs : List Nat) : List (Nat × Nat) :=
  ((triangleList idxs).map triEdges).flatten

/-- Append an element unless already present: the seen-set of first-seen
deduplication. -/
def insertNew (seen : List (Nat × Nat)) (e : Nat × Nat) : List (Nat × Nat) :=
  if e ∈ seen then seen else seen ++ [e]

/-- The seen-set after processing the three edges of one triangle. -/
def seen3 (seen : List (Nat × Nat)) (t : Nat × Nat × Nat) : List (Nat × Nat) :=
  insertNew (insertNew (insertNew seen (canonEdge t.1 t.2.1))
    (canonEdge t.2.1 t.2.2)) (canonEdge t.2.2 t.1)

/-- The distinct edges of a stream in order of first occurrence. -/
def firstDedup (l : List (Nat × Nat)) : List (Nat × Nat) :=
  l.foldl insertNew []

/-- Position of the first occurrence of `e` in `s` (length of `s` if
absent). -/
def posOf : List (Nat × Nat) → (Nat × Nat) → Nat
  | [], _ => 0
  | x :: xs, e => if x = e then 0 else posOf xs e + 1

/-- The association list the midpoint map holds after the distinct edges
`es` have been inserted in order, numbering from `V`. -/
def mkMids (V : Nat) : List (Nat × Nat) → List ((Nat × Nat) × Nat)
  | [] => []
  | e :: es => (e, V) :: mkMids (V + 1) es

/-- Specification of the emitted index list of one subdivision pass,
starting from the seen-set `seen`: for each input triangle `(t0,t1,t2)`,
the midpoint of edge `e` is vertex `V0 + (position of e's first
occurrence among the distinct edges)`, and the four child triangles
`(t0,m0,m2), (m0,t1,m1), (m0,m1,m2), (m2,m1,t2)` are emitted in order. -/
def childFrom (V0 : Nat) (seen : List (Nat × Nat)) :
    List (Nat × Nat × Nat) → List Nat
  | [] => []
  | t :: ts =>
    let e0 := canonEdge t.1 t.2.1
    let e1 := canonEdge t.2.1 t.2.2
    let e2 := canonEdge t.2.2 t.1
    let s3 := insertNew (insertNew (insertNew seen e0) e1) e2
    let m0 := V0 + posOf s3 e0
    let m1 := V0 + posOf s3 e1
    let m2 := V0 + posOf s3 e2
    [t.1, m0, m2, m0, t.2.1, m1, m0, m1, m2, m2, m1, t.2.2] ++
      childFrom V0 s3 ts

/-- Seen-set evolution across a list of triangles. -/
def seenAfter (seen : List (Nat × Nat)) (ts : List (Nat × Nat × Nat)) :
    List (Nat × Nat) :=
  ts.foldl (fun s t => (triEdges t).foldl insertNew s) seen


/-! Shadow of the index-level fold used for kernel-checked counting: the
midpoint map grows by prepending instead of appending, and the emitted
index accumulator is dropped.  Because the map's keys are only ever
queried through `List.lookup`, prepending a key that is not present gives
the same lookup function as appending it, so the vertex count evolves
identically (proved in `natVMFold_eq` below); the prepended form is far
cheaper to evaluate. -/

/-- Variant of `natEdgeMid` with a prepended (instead of appended) map entry. -/
def natEdgeMidF (V : Nat) (mids : List ((Nat × Nat) × Nat)) (e : Nat × Nat) :
    Nat × Nat × List ((Nat × Nat) × Nat) :=
  match mids.lookup e with
  | some i => (i, V, mids)
  | none => (V, V + 1, (e, V) :: mids)

/-- Variant of `natTriStep` restricted to the (vertex count, midpoint map) state. -/
def natVMStep (s : Nat × List ((Nat × Nat) × Nat)) (t : Nat × Nat × Nat) :
    Nat × List ((Nat × Nat) × Nat) :=
  let r0 := natEdgeMidF s.1 s.2 (canonEdge t.1 t.2.1)
  let r1 := natEdgeMidF r0.2.1 r0.2.2 (canonEdge t.2.1 t.2.2)
  let r2 := natEdgeMidF r1.2.1 r1.2.2 (canonEdge t.2.2 t.1)
  (r2.2.1, r2.2.2)

/-- The level-1 geosphere index list, `(natSubdiv icosahedronIndices 12).1`
(240 indices, 80 triangles), as a literal (verified by `decide` below). -/
def I1lit : List Nat := [0, 12, 14, 12, 5, 13, 12, 13, 14, 14, 13, 11, 0, 15, 12, 15, 1, 16, 15, 16, 12, 12, 16, 5, 0, 17, 15, 17, 7, 18, 17, 18, 15, 15, 18, 1, 0, 19, 17, 19, 10, 20, 19, 20, 17, 17, 20, 7, 0, 14, 19, 14, 11, 21, 14, 21, 19, 19, 21, 10, 1, 22, 16, 22, 9, 23, 22, 23, 16, 16, 23, 5, 5, 24, 13, 24, 4, 25, 24, 25, 13, 13, 25, 11, 11, 26, 21, 26, 2, 27, 26, 27, 21, 21, 27, 10, 10, 28, 20, 28, 6, 29, 28, 29, 20, 20, 29, 7, 7, 30, 18, 30, 8, 31, 30, 31, 18, 18, 31, 1, 3, 32, 34, 32, 4, 33, 32, 33, 34, 34, 33, 9, 3, 35, 32, 35, 2, 36, 35, 36, 32, 32, 36, 4, 3, 37, 35, 37, 6, 38, 37, 38, 35, 35, 38, 2, 3, 39, 37, 39, 8, 40, 39, 40, 37, 37, 40, 6, 3, 34, 39, 34, 9, 41, 34, 41, 39, 39, 41, 8, 4, 24, 33, 24, 5, 23, 24, 23, 33, 33, 23, 9, 2, 26, 36, 26, 11, 25, 26, 25, 36, 36, 25, 4, 6, 28, 38, 28, 10, 27, 28, 27, 38, 38, 27, 2, 8, 30, 40, 30, 7, 29, 30, 29, 40, 40, 29, 6, 9, 22, 41, 22, 1, 31, 22, 31, 41, 41, 31, 8]

/-- The level-2 geosphere index list, `(natSubdiv I1lit 42).1`
(960 indices, 320 triangles), as a literal (verified by `decide` below). -/
def I2lit : List Nat := [0, 42, 44, 42, 12, 43, 42, 43, 44, 44, 43, 14, 12, 45, 47, 45, 5, 46, 45, 46, 47, 47, 46, 13, 12, 47, 43, 47, 13, 48, 47, 48, 43, 43, 48, 14, 14, 48, 50, 48, 13, 49, 48, 49, 50, 50, 49, 11, 0, 51, 42, 51, 15, 52, 51, 52, 42, 42, 52, 12, 15, 53, 55, 53, 1, 54, 53, 54, 55, 55, 54, 16, 15, 55, 52, 55, 16, 56, 55, 56, 52, 52, 56, 12, 12, 56, 45, 56, 16, 57, 56, 57, 45, 45, 57, 5, 0, 58, 51, 58, 17, 59, 58, 59, 51, 51, 59, 15, 17, 60, 62, 60, 7, 61, 60, 61, 62, 62, 61, 18, 17, 62, 59, 62, 18, 63, 62, 63, 59, 59, 63, 15, 15, 63, 53, 63, 18, 64, 63, 64, 53, 53, 64, 1, 0, 65, 58, 65, 19, 66, 65, 66, 58, 58, 66, 17, 19, 67, 69, 67, 10, 68, 67, 68, 69, 69, 68, 20, 19, 69, 66, 69, 20, 70, 69, 70, 66, 66, 70, 17, 17, 70, 60, 70, 20, 71, 70, 71, 60, 60, 71, 7, 0, 44, 65, 44, 14, 72, 44, 72, 65, 65, 72, 19, 14, 50, 74, 50, 11, 73, 50, 73, 74, 74, 73, 21, 14, 74, 72, 74, 21, 75, 74, 75, 72, 72, 75, 19, 19, 75, 67, 75, 21, 76, 75, 76, 67, 67, 76, 10, 1, 77, 54, 77, 22, 78, 77, 78, 54, 54, 78, 16, 22, 79, 81, 79, 9, 80, 79, 80, 81, 81, 80, 23, 22, 81, 78, 81, 23, 82, 81, 82, 78, 78, 82, 16, 16, 82, 57, 82, 23, 83, 82, 83, 57, 57, 83, 5, 5, 84, 46, 84, 24, 85, 84, 85, 46, 46, 85, 13, 24, 86, 88, 86, 4, 87, 86, 87, 88, 88, 87, 25, 24, 88, 85, 88, 25, 89, 88, 89, 85, 85, 89, 13, 13, 89, 49, 89, 25, 90, 89, 90, 49, 49, 90, 11, 11, 91, 73, 91, 26, 92, 91, 92, 73, 73, 92, 21, 26, 93, 95, 93, 2, 94, 93, 94, 95, 95, 94, 27, 26, 95, 92, 95, 27, 96, 95, 96, 92, 92, 96, 21, 21, 96, 76, 96, 27, 97, 96, 97, 76, 76, 97, 10, 10, 98, 68, 98, 28, 99, 98, 99, 68, 68, 99, 20, 28, 100, 102, 100, 6, 101, 100, 101, 102, 102, 101, 29, 28, 102, 99, 102, 29, 103, 102, 103, 99, 99, 103, 20, 20, 103, 71, 103, 29, 104, 103, 104, 71, 71, 104, 7, 7, 105, 61, 105, 30, 106, 105, 106, 61, 61, 106, 18, 30, 107, 109, 107, 8, 108, 107, 108, 109, 109, 108, 31, 30, 109, 106, 109, 31, 110, 109, 110, 106, 106, 110, 18, 18, 110, 64, 110, 31, 111, 110, 111, 64, 64, 111, 1, 3, 112, 114, 112, 32, 113, 112, 113, 114, 114, 113, 34, 32, 115, 117, 115, 4, 116, 115, 116, 117, 117, 116, 33, 32, 117, 113, 117, 33, 118, 117, 118, 113, 113, 118, 34, 34, 118, 120, 118, 33, 119, 118, 119, 120, 120, 119, 9, 3, 121, 112, 121, 35, 122, 121, 122, 112, 112, 122, 32, 35, 123, 125, 123, 2, 124, 123, 124, 125, 125, 124, 36, 35, 125, 122, 125, 36, 126, 125, 126, 122, 122, 126, 32, 32, 126, 115, 126, 36, 127, 126, 127, 115, 115, 127, 4, 3, 128, 121, 128, 37, 129, 128, 129, 121, 121, 129, 35, 37, 130, 132, 130, 6, 131, 130, 131, 132, 132, 131, 38, 37, 132, 129, 132, 38, 133, 132, 133, 129, 129, 133, 35, 35, 133, 123, 133, 38, 134, 133, 134, 123, 123, 134, 2, 3, 135, 128, 135, 39, 136, 135, 136, 128, 128, 136, 37, 39, 137, 139, 137, 8, 138, 137, 138, 139, 139, 138, 40, 39, 139, 136, 139, 40, 140, 139, 140, 136, 136, 140, 37, 37, 140, 130, 140, 40, 141, 140, 141, 130, 130, 141, 6, 3, 114, 135, 114, 34, 142, 114, 142, 135, 135, 142, 39, 34, 120, 144, 120, 9, 143, 120, 143, 144, 144, 143, 41, 34, 144, 142, 144, 41, 145, 144, 145, 142, 142, 145, 39, 39, 145, 137, 145, 41, 146, 145, 146, 137, 137, 146, 8, 4, 86, 116, 86, 24, 147, 86, 147, 116, 116, 147, 33, 24, 84, 148, 84, 5, 83, 84, 83, 148, 148, 83, 23, 24, 148, 147, 148, 23, 149, 148, 149, 147, 147, 149, 33, 33, 149, 119, 149, 23, 80, 149, 80, 119, 119, 80, 9, 2, 93, 124, 93, 26, 150, 93, 150, 124, 124, 150, 36, 26, 91, 151, 91, 11, 90, 91, 90, 151, 151, 90, 25, 26, 151, 150, 151, 25, 152, 151, 152, 150, 150, 152, 36, 36, 152, 127, 152, 25, 87, 152, 87, 127, 127, 87, 4, 6, 100, 131, 100, 28, 153, 100, 153, 131, 131, 153, 38, 28, 98, 154, 98, 10, 97, 98, 97, 154, 154, 97, 27, 28, 154, 153, 154, 27, 155, 154, 155, 153, 153, 155, 38, 38, 155, 134, 155, 27, 94, 155, 94, 134, 134, 94, 2, 8, 107, 138, 107, 30, 156, 107, 156, 138, 138, 156, 40, 30, 105, 157, 105, 7, 104, 105, 104, 157, 157, 104, 29, 30, 157, 156, 157, 29, 158, 157, 158, 156, 156, 158, 40, 40, 158, 141, 158, 29, 101, 158, 101, 141, 141, 101, 6, 9, 79, 143, 79, 22, 159, 79, 159, 143, 143, 159, 41, 22, 77, 160, 77, 1, 111, 77, 111, 160, 160, 111, 31, 22, 160, 159, 160, 31, 161, 160, 161, 159, 159, 161, 41, 41, 161, 146, 161, 31, 108, 161, 108, 146, 146, 108, 8]

/-- State of the level-3 counting fold after the first 80 of the 320
level-2 triangles (verified by `decide` below). -/
def vmSt1 : Nat × List ((Nat × Nat) × Nat) := (292, [((10, 76), 291), ((67, 76), 290), ((75, 76), 289), ((21, 76), 288), ((67, 75), 287), ((19, 75), 286), ((72, 75), 285), ((74, 75), 284), ((21, 75), 283), ((72, 74), 282), ((21, 74), 281), ((21, 73), 280), ((73, 74), 279), ((50, 73), 278), ((11, 73), 277), ((14, 74), 276), ((50, 74), 275), ((19, 72), 274), ((65, 72), 273), ((44, 72), 272), ((14, 72), 271), ((44, 65), 270), ((7, 71), 269), ((60, 71), 268), ((70, 71), 267), ((20, 71), 266), ((60, 70), 265), ((17, 70), 264), ((66, 70), 263), ((69, 70), 262), ((20, 70), 261), ((66, 69), 260), ((20, 69), 259), ((20, 68), 258), ((68, 69), 257), ((67, 68), 256), ((10, 68), 255), ((10, 67), 254), ((19, 69), 253), ((67, 69), 252), ((19, 67), 251), ((17, 66), 250), ((58, 66), 249), ((65, 66), 248), ((19, 66), 247), ((19, 65), 246), ((58, 65), 245), ((0, 65), 244), ((1, 64), 243), ((53, 64), 242), ((63, 64), 241), ((18, 64), 240), ((53, 63), 239), ((15, 63), 238), ((59, 63), 237), ((62, 63), 236), ((18, 63), 235), ((59, 62), 234), ((18, 62), 233), ((18, 61), 232), ((61, 62), 231), ((60, 61), 230), ((7, 61), 229), ((7, 60), 228), ((17, 62), 227), ((60, 62), 226), ((17, 60), 225), ((15, 59), 224), ((51, 59), 223), ((58, 59), 222), ((17, 59), 221), ((17, 58), 220), ((51, 58), 219), ((0, 58), 218), ((5, 57), 217), ((45, 57), 216), ((56, 57), 215), ((16, 57), 214), ((45, 56), 213), ((12, 56), 212), ((52, 56), 211), ((55, 56), 210), ((16, 56), 209), ((52, 55), 208), ((16, 55), 207), ((16, 54), 206), ((54, 55), 205), ((53, 54), 204), ((1, 54), 203), ((1, 53), 202), ((15, 55), 201), ((53, 55), 200), ((15, 53), 199), ((12, 52), 198), ((42, 52), 197), ((51, 52), 196), ((15, 52), 195), ((15, 51), 194), ((42, 51), 193), ((0, 51), 192), ((11, 50), 191), ((11, 49), 190), ((49, 50), 189), ((48, 49), 188), ((13, 49), 187), ((14, 50), 186), ((48, 50), 185), ((14, 48), 184), ((43, 48), 183), ((47, 48), 182), ((13, 48), 181), ((43, 47), 180), ((13, 47), 179), ((13, 46), 178), ((46, 47), 177), ((45, 46), 176), ((5, 46), 175), ((5, 45), 174), ((12, 47), 173), ((45, 47), 172), ((12, 45), 171), ((14, 44), 170), ((14, 43), 169), ((43, 44), 168), ((42, 43), 167), ((12, 43), 166), ((12, 42), 165), ((0, 44), 164), ((42, 44), 163), ((0, 42), 162)])

/-- State of the level-3 counting fold after 160 triangles. -/
def vmSt2 : Nat × List ((Nat × Nat) × Nat) := (422, [((1, 111), 421), ((64, 111), 420), ((110, 111), 419), ((31, 111), 418), ((64, 110), 417), ((18, 110), 416), ((106, 110), 415), ((109, 110), 414), ((31, 110), 413), ((106, 109), 412), ((31, 109), 411), ((31, 108), 410), ((108, 109), 409), ((107, 108), 408), ((8, 108), 407), ((8, 107), 406), ((30, 109), 405), ((107, 109), 404), ((30, 107), 403), ((18, 106), 402), ((61, 106), 401), ((105, 106), 400), ((30, 106), 399), ((30, 105), 398), ((61, 105), 397), ((7, 105), 396), ((7, 104), 395), ((71, 104), 394), ((103, 104), 393), ((29, 104), 392), ((71, 103), 391), ((20, 103), 390), ((99, 103), 389), ((102, 103), 388), ((29, 103), 387), ((99, 102), 386), ((29, 102), 385), ((29, 101), 384), ((101, 102), 383), ((100, 101), 382), ((6, 101), 381), ((6, 100), 380), ((28, 102), 379), ((100, 102), 378), ((28, 100), 377), ((20, 99), 376), ((68, 99), 375), ((98, 99), 374), ((28, 99), 373), ((28, 98), 372), ((68, 98), 371), ((10, 98), 370), ((10, 97), 369), ((76, 97), 368), ((96, 97), 367), ((27, 97), 366), ((76, 96), 365), ((21, 96), 364), ((92, 96), 363), ((95, 96), 362), ((27, 96), 361), ((92, 95), 360), ((27, 95), 359), ((27, 94), 358), ((94, 95), 357), ((93, 94), 356), ((2, 94), 355), ((2, 93), 354), ((26, 95), 353), ((93, 95), 352), ((26, 93), 351), ((21, 92), 350), ((73, 92), 349), ((91, 92), 348), ((26, 92), 347), ((26, 91), 346), ((73, 91), 345), ((11, 91), 344), ((11, 90), 343), ((49, 90), 342), ((89, 90), 341), ((25, 90), 340), ((49, 89), 339), ((13, 89), 338), ((85, 89), 337), ((88, 89), 336), ((25, 89), 335), ((85, 88), 334), ((25, 88), 333), ((25, 87), 332), ((87, 88), 331), ((86, 87), 330), ((4, 87), 329), ((4, 86), 328), ((24, 88), 327), ((86, 88), 326), ((24, 86), 325), ((13, 85), 324), ((46, 85), 323), ((84, 85), 322), ((24, 85), 321), ((24, 84), 320), ((46, 84), 319), ((5, 84), 318), ((5, 83), 317), ((57, 83), 316), ((82, 83), 315), ((23, 83), 314), ((57, 82), 313), ((16, 82), 312), ((78, 82), 311), ((81, 82), 310), ((23, 82), 309), ((78, 81), 308), ((23, 81), 307), ((23, 80), 306), ((80, 81), 305), ((79, 80), 304), ((9, 80), 303), ((9, 79), 302), ((22, 81), 301), ((79, 81), 300), ((22, 79), 299), ((16, 78), 298), ((54, 78), 297), ((77, 78), 296), ((22, 78), 295), ((22, 77), 294), ((54, 77), 293), ((1, 77), 292), ((10, 76), 291), ((67, 76), 290), ((75, 76), 289), ((21, 76), 288), ((67, 75), 287), ((19, 75), 286), ((72, 75), 285), ((74, 75), 284), ((21, 75), 283), ((72, 74), 282), ((21, 74), 281), ((21, 73), 280), ((73, 74), 279), ((50, 73), 278), ((11, 73), 277), ((14, 74), 276), ((50, 74), 275), ((19, 72), 274), ((65, 72), 273), ((44, 72), 272), ((14, 72), 271), ((44, 65), 270), ((7, 71), 269), ((60, 71), 268), ((70, 71), 267), ((20, 71), 266), ((60, 70), 265), ((17, 70), 264), ((66, 70), 263), ((69, 70), 262), ((20, 70), 261), ((66, 69), 260), ((20, 69), 259), ((20, 68), 258), ((68, 69), 257), ((67, 68), 256), ((10, 68), 255), ((10, 67), 254), ((19, 69), 253), ((67, 69), 252), ((19, 67), 251), ((17, 66), 250), ((58, 66), 249), ((65, 66), 248), ((19, 66), 247), ((19, 65), 246), ((58, 65), 245), ((0, 65), 244), ((1, 64), 243), ((53, 64), 242), ((63, 64), 241), ((18, 64), 240), ((53, 63), 239), ((15, 63), 238), ((59, 63), 237), ((62, 63), 236), ((18, 63), 235), ((59, 62), 234), ((18, 62), 233), ((18, 61), 232), ((61, 62), 231), ((60, 61), 230), ((7, 61), 229), ((7, 60), 228), ((17, 62), 227), ((60, 62), 226), ((17, 60), 225), ((15, 59), 224), ((51, 59), 223), ((58, 59), 222), ((17, 59), 221), ((17, 58), 220), ((51, 58), 219), ((0, 58), 218), ((5, 57), 217), ((45, 57), 216), ((56, 57), 215), ((16, 57), 214), ((45, 56), 213), ((12, 56), 212), ((52, 56), 211), ((55, 56), 210), ((16, 56), 209), ((52, 55), 208), ((16, 55), 207), ((16, 54), 206), ((54, 55), 205), ((53, 54), 204), ((1, 54), 203), ((1, 53), 202), ((15, 55), 201), ((53, 55), 200), ((15, 53), 199), ((12, 52), 198), ((42, 52), 197), ((51, 52), 196), ((15, 52), 195), ((15, 51), 194), ((42, 51), 193), ((0, 51), 192), ((11, 50), 191), ((11, 49), 190), ((49, 50), 189), ((48, 49), 188), ((13, 49), 187), ((14, 50), 186), ((48, 50), 185), ((14, 48), 184), ((43, 48), 183), ((47, 48), 182), ((13, 48), 181), ((43, 47), 180), ((13, 47), 179), ((13, 46), 178), ((46, 47), 177), ((45, 46), 176), ((5, 46), 175), ((5, 45), 174), ((12, 47), 173), ((45, 47), 172), ((12, 45), 171), ((14, 44), 170), ((14, 43), 169), ((43, 44), 168), ((42, 43), 167), ((12, 43), 166), ((12, 42), 165), ((0, 44), 164), ((42, 44), 163), ((0, 42), 162)])

/-- State of the level-3 counting fold after 240 triangles. -/
def vmSt3 : Nat × List ((Nat × Nat) × Nat) := (552, [((8, 146), 551), ((137, 146), 550), ((145, 146), 549), ((41, 146), 548), ((137, 145), 547), ((39, 145), 546), ((142, 145), 545), ((144, 145), 544), ((41, 145), 543), ((142, 144), 542), ((41, 144), 541), ((41, 143), 540), ((143, 144), 539), ((120, 143), 538), ((9, 143), 537), ((34, 144), 536), ((120, 144), 535), ((39, 142), 534), ((135, 142), 533), ((114, 142), 532), ((34, 142), 531), ((114, 135), 530), ((6, 141), 529), ((130, 141), 528), ((140, 141), 527), ((40, 141), 526), ((130, 140), 525), ((37, 140), 524), ((136, 140), 523), ((139, 140), 522), ((40, 140), 521), ((136, 139), 520), ((40, 139), 519), ((40, 138), 518), ((138, 139), 517), ((137, 138), 516), ((8, 138), 515), ((8, 137), 514), ((39, 139), 513), ((137, 139), 512), ((39, 137), 511), ((37, 136), 510), ((128, 136), 509), ((135, 136), 508), ((39, 136), 507), ((39, 135), 506), ((128, 135), 505), ((3, 135), 504), ((2, 134), 503), ((123, 134), 502), ((133, 134), 501), ((38, 134), 500), ((123, 133), 499), ((35, 133), 498), ((129, 133), 497), ((132, 133), 496), ((38, 133), 495), ((129, 132), 494), ((38, 132), 493), ((38, 131), 492), ((131, 132), 491), ((130, 131), 490), ((6, 131), 489), ((6, 130), 488), ((37, 132), 487), ((130, 132), 486), ((37, 130), 485), ((35, 129), 484), ((121, 129), 483), ((128, 129), 482), ((37, 129), 481), ((37, 128), 480), ((121, 128), 479), ((3, 128), 478), ((4, 127), 477), ((115, 127), 476), ((126, 127), 475), ((36, 127), 474), ((115, 126), 473), ((32, 126), 472), ((122, 126), 471), ((125, 126), 470), ((36, 126), 469), ((122, 125), 468), ((36, 125), 467), ((36, 124), 466), ((124, 125), 465), ((123, 124), 464), ((2, 124), 463), ((2, 123), 462), ((35, 125), 461), ((123, 125), 460), ((35, 123), 459), ((32, 122), 458), ((112, 122), 457), ((121, 122), 456), ((35, 122), 455), ((35, 121), 454), ((112, 121), 453), ((3, 121), 452), ((9, 120), 451), ((9, 119), 450), ((119, 120), 449), ((118, 119), 448), ((33, 119), 447), ((34, 120), 446), ((118, 120), 445), ((34, 118), 444), ((113, 118), 443), ((117, 118), 442), ((33, 118), 441), ((113, 117), 440), ((33, 117), 439), ((33, 116), 438), ((116, 117), 437), ((115, 116), 436), ((4, 116), 435), ((4, 115), 434), ((32, 117), 433), ((115, 117), 432), ((32, 115), 431), ((34, 114), 430), ((34, 113), 429), ((113, 114), 428), ((112, 113), 427), ((32, 113), 426), ((32, 112), 425), ((3, 114), 424), ((112, 114), 423), ((3, 112), 422), ((1, 111), 421), ((64, 111), 420), ((110, 111), 419), ((31, 111), 418), ((64, 110), 417), ((18, 110), 416), ((106, 110), 415), ((109, 110), 414), ((31, 110), 413), ((106, 109), 412), ((31, 109), 411), ((31, 108), 410), ((108, 109), 409), ((107, 108), 408), ((8, 108), 407), ((8, 107), 406), ((30, 109), 405), ((107, 109), 404), ((30, 107), 403), ((18, 106), 402), ((61, 106), 401), ((105, 106), 400), ((30, 106), 399), ((30, 105), 398), ((61, 105), 397), ((7, 105), 396), ((7, 104), 395), ((71, 104), 394), ((103, 104), 393), ((29, 104), 392), ((71, 103), 391), ((20, 103), 390), ((99, 103), 389), ((102, 103), 388), ((29, 103), 387), ((99, 102), 386), ((29, 102), 385), ((29, 101), 384), ((101, 102), 383), ((100, 101), 382), ((6, 101), 381), ((6, 100), 380), ((28, 102), 379), ((100, 102), 378), ((28, 100), 377), ((20, 99), 376), ((68, 99), 375), ((98, 99), 374), ((28, 99), 373), ((28, 98), 372), ((68, 98), 371), ((10, 98), 370), ((10, 97), 369), ((76, 97), 368), ((96, 97), 367), ((27, 97), 366), ((76, 96), 365), ((21, 96), 364), ((92, 96), 363), ((95, 96), 362), ((27, 96), 361), ((92, 95), 360), ((27, 95), 359), ((27, 94), 358), ((94, 95), 357), ((93, 94), 356), ((2, 94), 355), ((2, 93), 354), ((26, 95), 353), ((93, 95), 352), ((26, 93), 351), ((21, 92), 350), ((73, 92), 349), ((91, 92), 348), ((26, 92), 347), ((26, 91), 346), ((73, 91), 345), ((11, 91), 344), ((11, 90), 343), ((49, 90), 342), ((89, 90), 341), ((25, 90), 340), ((49, 89), 339), ((13, 89), 338), ((85, 89), 337), ((88, 89), 336), ((25, 89), 335), ((85, 88), 334), ((25, 88), 333), ((25, 87), 332), ((87, 88), 331), ((86, 87), 330), ((4, 87), 329), ((4, 86), 328), ((24, 88), 327), ((86, 88), 326), ((24, 86), 325), ((13, 85), 324), ((46, 85), 323), ((84, 85), 322), ((24, 85), 321), ((24, 84), 320), ((46, 84), 319), ((5, 84), 318), ((5, 83), 317), ((57, 83), 316), ((82, 83), 315), ((23, 83), 314), ((57, 82), 313), ((16, 82), 312), ((78, 82), 311), ((81, 82), 310), ((23, 82), 309), ((78, 81), 308), ((23, 81), 307), ((23, 80), 306), ((80, 81), 305), ((79, 80), 304), ((9, 80), 303), ((9, 79), 302), ((22, 81), 301), ((79, 81), 300), ((22, 79), 299), ((16, 78), 298), ((54, 78), 297), ((77, 78), 296), ((22, 78), 295), ((22, 77), 294), ((54, 77), 293), ((1, 77), 292), ((10, 76), 291), ((67, 76), 290), ((75, 76), 289), ((21, 76), 288), ((67, 75), 287), ((19, 75), 286), ((72, 75), 285), ((74, 75), 284), ((21, 75), 283), ((72, 74), 282), ((21, 74), 281), ((21, 73), 280), ((73, 74), 279), ((50, 73), 278), ((11, 73), 277), ((14, 74), 276), ((50, 74), 275), ((19, 72), 274), ((65, 72), 273), ((44, 72), 272), ((14, 72), 271), ((44, 65), 270), ((7, 71), 269), ((60, 71), 268), ((70, 71), 267), ((20, 71), 266), ((60, 70), 265), ((17, 70), 264), ((66, 70), 263), ((69, 70), 262), ((20, 70), 261), ((66, 69), 260), ((20, 69), 259), ((20, 68), 258), ((68, 69), 257), ((67, 68), 256), ((10, 68), 255), ((10, 67), 254), ((19, 69), 253), ((67, 69), 252), ((19, 67), 251), ((17, 66), 250), ((58, 66), 249), ((65, 66), 248), ((19, 66), 247), ((19, 65), 246), ((58, 65), 245), ((0, 65), 244), ((1, 64), 243), ((53, 64), 242), ((63, 64), 241), ((18, 64), 240), ((53, 63), 239), ((15, 63), 238), ((59, 63), 237), ((62, 63), 236), ((18, 63), 235), ((59, 62), 234), ((18, 62), 233), ((18, 61), 232), ((61, 62), 231), ((60, 61), 230), ((7, 61), 229), ((7, 60), 228), ((17, 62), 227), ((60, 62), 226), ((17, 60), 225), ((15, 59), 224), ((51, 59), 223), ((58, 59), 222), ((17, 59), 221), ((17, 58), 220), ((51, 58), 219), ((0, 58), 218), ((5, 57), 217), ((45, 57), 216), ((56, 57), 215), ((16, 57), 214), ((45, 56), 213), ((12, 56), 212), ((52, 56), 211), ((55, 56), 210), ((16, 56), 209), ((52, 55), 208), ((16, 55), 207), ((16, 54), 206), ((54, 55), 205), ((53, 54), 204), ((1, 54), 203), ((1, 53), 202), ((15, 55), 201), ((53, 55), 200), ((15, 53), 199), ((12, 52), 198), ((42, 52), 197), ((51, 52), 196), ((15, 52), 195), ((15, 51), 194), ((42, 51), 193), ((0, 51), 192), ((11, 50), 191), ((11, 49), 190), ((49, 50), 189), ((48, 49), 188), ((13, 49), 187), ((14, 50), 186), ((48, 50), 185), ((14, 48), 184), ((43, 48), 183), ((47, 48), 182), ((13, 48), 181), ((43, 47), 180), ((13, 47), 179), ((13, 46), 178), ((46, 47), 177), ((45, 46), 176), ((5, 46), 175), ((5, 45), 174), ((12, 47), 173), ((45, 47), 172), ((12, 45), 171), ((14, 44), 170), ((14, 43), 169), ((43, 44), 168), ((42, 43), 167), ((12, 43), 166), ((12, 42), 165), ((0, 44), 164), ((42, 44), 163), ((0, 42), 162)])

/-! ### Basic lemmas about the triangle grouping -/

theorem triangleList_length : ∀ l : List Nat, (triangleList l).length = l.length / 3
  | [] => rfl
  | [_] => by norm_num [triangleList]
  | [_, _] => by norm_num [triangleList]
  | a :: b :: c :: r => by
      simp only [triangleList, List.length_cons, triangleList_length r]
      rw [show r.length + 1 + 1 + 1 = r.length + 3 from rfl,
        Nat.add_div_right _ (by norm_num)]

theorem triangleList_mem : ∀ (l : List Nat) (t : Nat × Nat × Nat),
    t ∈ triangleList l → t.1 ∈ l ∧ t.2.1 ∈ l ∧ t.2.2 ∈ l
  | [], _, ht => by simp [triangleList] at ht
  | [_], _, ht => by simp [triangleList] at ht
  | [_, _], _, ht => by simp [triangleList] at ht
  | a :: b :: c :: r, t, ht => by
      simp only [triangleList, List.mem_cons] at ht
      rcases ht with h | h
      · subst h; simp
      · have h' := triangleList_mem r t h
        refine ⟨?_, ?_, ?_⟩ <;> simp [h'.1, h'.2.1, h'.2.2]

theorem canonEdge_fst_lt {i j n : Nat} (hi : i < n) (hj : j < n) :
    (canonEdge i j).1 < n := by
  unfold canonEdge; split <;> simp [hi, hj]

theorem canonEdge_snd_lt {i j n : Nat} (hi : i < n) (hj : j < n) :
    (canonEdge i j).2 < n := by
  unfold canonEdge; split <;> simp [hi, hj]

/-! ### The index-level projection: `SubdivideInPlace` agrees with
`natSubdiv` on everything except the vertex values -/

theorem edgeMid_proj {α : Type} [Field α] (verts : List (V3 α))
    (mids : List ((Nat × Nat) × Nat)) (e : Nat × Nat) :
    (EdgeMidpoint verts mids e).1 = (natEdgeMid verts.length mids e).1 ∧
    (EdgeMidpoint verts mids e).2.1.length = (natEdgeMid verts.length mids e).2.1 ∧
    (EdgeMidpoint verts mids e).2.2 = (natEdgeMid verts.length mids e).2.2 := by
  unfold EdgeMidpoint natEdgeMid
  cases h : mids.lookup e <;> simp

theorem triStep_proj {α : Type} [Field α]
    (s : List (V3 α) × List ((Nat × Nat) × Nat) × List Nat) (t : Nat × Nat × Nat) :
    (subdivTriStep s t).1.length = (natTriStep (s.1.length, s.2.1, s.2.2) t).1 ∧
    (subdivTriStep s t).2.1 = (natTriStep (s.1.length, s.2.1, s.2.2) t).2.1 ∧
    (subdivTriStep s t).2.2 = (natTriStep (s.1.length, s.2.1, s.2.2) t).2.2 := by
  obtain ⟨verts, mids, acc⟩ := s
  simp only [subdivTriStep, natTriStep]
  obtain ⟨h0a, h0b, h0c⟩ := edgeMid_proj verts mids (canonEdge t.1 t.2.1)
  rw [← h0a, ← h0b, ← h0c]
  obtain ⟨h1a, h1b, h1c⟩ := edgeMid_proj (EdgeMidpoint verts mids (canonEdge t.1 t.2.1)).2.1
    (EdgeMidpoint verts mids (canonEdge t.1 t.2.1)).2.2 (canonEdge t.2.1 t.2.2)
  rw [← h1a, ← h1b, ← h1c]
  obtain ⟨h2a, h2b, h2c⟩ := edgeMid_proj
    (EdgeMidpoint (EdgeMidpoint verts mids (canonEdge t.1 t.2.1)).2.1
      (EdgeMidpoint verts mids (canonEdge t.1 t.2.1)).2.2 (canonEdge t.2.1 t.2.2)).2.1
    (EdgeMidpoint (EdgeMidpoint verts mids (canonEdge t.1 t.2.1)).2.1
      (EdgeMidpoint verts mids (canonEdge t.1 t.2.1)).2.2 (canonEdge t.2.1 t.2.2)).2.2
    (canonEdge t.2.2 t.1)
  rw [← h2a, ← h2b, ← h2c]
  exact ⟨rfl, rfl, rfl⟩

theorem subdivFold_proj {α : Type} [Field α] :
    ∀ (ts : List (Nat × Nat × Nat))
      (s : List (V3 α) × List ((Nat × Nat) × Nat) × List Nat),
      (ts.foldl subdivTriStep s).1.length
          = (ts.foldl natTriStep (s.1.length, s.2.1, s.2.2)).1 ∧
      (ts.foldl subdivTriStep s).2.1
          = (ts.foldl natTriStep (s.1.length, s.2.1, s.2.2)).2.1 ∧
      (ts.foldl subdivTriStep s).2.2
          = (ts.foldl natTriStep (s.1.length, s.2.1, s.2.2)).2.2
  | [], s => ⟨rfl, rfl, rfl⟩
  | t :: ts, s => by
      rw [List.foldl_cons, List.foldl_cons]
      have hstep := triStep_proj s t
      have hrec := subdivFold_proj ts (subdivTriStep s t)
      rw [hstep.1, hstep.2.1, hstep.2.2] at hrec
      simpa using hrec

theorem subdiv_proj {α : Type} [Field α] (m : Mesh α) :
    (SubdivideInPlace m).indices = (natSubdiv m.indices m.vertices.length).1 ∧
    (SubdivideInPlace m).vertices.length = (natSubdiv m.indices m.vertices.length).2 ∧
    (SubdivideInPlace m).normals = m.normals ∧
    (SubdivideInPlace m).uv = m.uv := by
  have h := subdivFold_proj (α := α) (triangleList m.indices) (m.vertices, [], [])
  exact ⟨h.2.2, h.1, rfl, rfl⟩

/-! ### The counting shadow agrees with `natSubdiv` -/

theorem lookup_append {β : Type} (l₁ l₂ : List ((Nat × Nat) × β)) (a : Nat × Nat) :
    (l₁ ++ l₂).lookup a =
      match l₁.lookup a with
      | some b => some b
      | none => l₂.lookup a := by
  induction l₁ with
  | nil => rfl
  | cons p l ih =>
      obtain ⟨k, v⟩ := p
      rw [List.cons_append, List.lookup_cons, List.lookup_cons]
      cases h : a == k
      · simpa using ih
      · rfl

theorem natEdgeMid_vm (V : Nat) (m₁ m₂ : List ((Nat × Nat) × Nat))
    (e : Nat × Nat) (h : ∀ x, m₁.lookup x = m₂.lookup x) :
    (natEdgeMid V m₁ e).1 = (natEdgeMidF V m₂ e).1 ∧
    (natEdgeMid V m₁ e).2.1 = (natEdgeMidF V m₂ e).2.1 ∧
    (∀ x, (natEdgeMid V m₁ e).2.2.lookup x = (natEdgeMidF V m₂ e).2.2.lookup x) := by
  unfold natEdgeMid natEdgeMidF
  rw [h e]
  cases hm : m₂.lookup e with
  | some i => simp [h]
  | none =>
      refine ⟨rfl, rfl, fun x => ?_⟩
      simp only [lookup_append, List.lookup_cons]
      cases hx : x == e
      · have hxe : x ≠ e := by simpa using hx
        rw [h x]
        cases hx2 : m₂.lookup x <;> simp [List.lookup_cons, hx]
      · have hxe : x = e := by simpa using hx
        subst hxe
        rw [h x, hm]

theorem natTriStep_vm (V : Nat) (m₁ m₂ : List ((Nat × Nat) × Nat))
    (acc : List Nat) (t : Nat × Nat × Nat)
    (h : ∀ x, m₁.lookup x = m₂.lookup x) :
    (natTriStep (V, m₁, acc) t).1 = (natVMStep (V, m₂) t).1 ∧
    (∀ x, (natTriStep (V, m₁, acc) t).2.1.lookup x
        = (natVMStep (V, m₂) t).2.lookup x) := by
  simp only [natTriStep, natVMStep]
  obtain ⟨h0a, h0b, h0c⟩ := natEdgeMid_vm V m₁ m₂ (canonEdge t.1 t.2.1) h
  rw [h0b]
  obtain ⟨h1a, h1b, h1c⟩ := natEdgeMid_vm
    (natEdgeMidF V m₂ (canonEdge t.1 t.2.1)).2.1
    (natEdgeMid V m₁ (canonEdge t.1 t.2.1)).2.2
    (natEdgeMidF V m₂ (canonEdge t.1 t.2.1)).2.2
    (canonEdge t.2.1 t.2.2) h0c
  rw [h1b]
  obtain ⟨h2a, h2b, h2c⟩ := natEdgeMid_vm
    (natEdgeMidF (natEdgeMidF V m₂ (canonEdge t.1 t.2.1)).2.1
      (natEdgeMidF V m₂ (canonEdge t.1 t.2.1)).2.2 (canonEdge t.2.1 t.2.2)).2.1
    (natEdgeMid (natEdgeMidF V m₂ (canonEdge t.1 t.2.1)).2.1
      (natEdgeMid V m₁ (canonEdge t.1 t.2.1)).2.2 (canonEdge t.2.1 t.2.2)).2.2
    (natEdgeMidF (natEdgeMidF V m₂ (canonEdge t.1 t.2.1)).2.1
      (natEdgeMidF V m₂ (canonEdge t.1 t.2.1)).2.2 (canonEdge t.2.1 t.2.2)).2.2
    (canonEdge t.2.2 t.1) h1c
  rw [h2b]
  exact ⟨rfl, h2c⟩

theorem natVMFold_eq :
    ∀ (ts : List (Nat × Nat × Nat))
      (s : Nat × List ((Nat × Nat) × Nat) × List Nat)
      (w : Nat × List ((Nat × Nat) × Nat)),
      s.1 = w.1 → (∀ x, s.2.1.lookup x = w.2.lookup x) →
      (ts.foldl natTriStep s).1 = (ts.foldl natVMStep w).1
  | [], _, _, h1, _ => h1
  | t :: ts, s, w, h1, h2 => by
      rw [List.foldl_cons, List.foldl_cons]
      obtain ⟨V, m₁, acc⟩ := s
      obtain ⟨W, m₂⟩ := w
      obtain rfl : V = W := h1
      obtain ⟨hV, hM⟩ := natTriStep_vm V m₁ m₂ acc t h2
      exact natVMFold_eq ts (natTriStep (V, m₁, acc) t) (natVMStep (V, m₂) t) hV hM

/-- The vertex count of `natSubdiv` can be computed with the cheap shadow
fold. -/
theorem natSubdiv_count (idxs : List Nat) (V : Nat) :
    (natSubdiv idxs V).2 = ((triangleList idxs).foldl natVMStep (V, [])).1 :=
  natVMFold_eq (triangleList idxs) (V, [], []) (V, []) rfl (fun _ => rfl)

/-! ### Kernel-checked subdivision counts for the icosahedron levels -/

set_option maxRecDepth 20000 in
theorem natSubdiv_ico_idx : (natSubdiv icosahedronIndices 12).1 = I1lit := by decide

set_option maxRecDepth 20000 in
theorem natSubdiv_ico_count : (natSubdiv icosahedronIndices 12).2 = 42 := by decide

set_option maxRecDepth 20000 in
theorem natSubdiv_I1_idx : (natSubdiv I1lit 42).1 = I2lit := by decide

set_option maxRecDepth 20000 in
theorem natSubdiv_I1_count : (natSubdiv I1lit 42).2 = 162 := by decide

set_option maxRecDepth 20000 in
theorem vmChunk1 :
    ((triangleList I2lit).take 80).foldl natVMStep (162, []) = vmSt1 := by decide

set_option maxRecDepth 20000 in
theorem vmChunk2 :
    (((triangleList I2lit).drop 80).take 80).foldl natVMStep vmSt1 = vmSt2 := by decide

set_option maxRecDepth 20000 in
theorem vmChunk3 :
    (((triangleList I2lit).drop 160).take 80).foldl natVMStep vmSt2 = vmSt3 := by decide

set_option maxRecDepth 20000 in
theorem vmChunk4 :
    (((triangleList I2lit).drop 240).foldl natVMStep vmSt3).1 = 642 := by decide

/-- The level-3 subdivision of the geosphere has 642 vertices: the
level-2 mesh's 162 plus one midpoint per distinct level-2 edge. -/
theorem natSubdiv_I2_count : (natSubdiv I2lit 162).2 = 642 := by
  rw [natSubdiv_count]
  rw [← List.take_append_drop 80 (triangleList I2lit), List.foldl_append, vmChunk1]
  rw [← List.take_append_drop 80 ((triangleList I2lit).drop 80), List.foldl_append,
    vmChunk2, List.drop_drop]
  rw [← List.take_append_drop 80 ((triangleList I2lit).drop (80 + 80)), List.foldl_append]
  rw [show (80 + 80 : Nat) = 160 from rfl, vmChunk3, List.drop_drop]
  rw [show (80 + 160 : Nat) = 240 from rfl]
  exact vmChunk4

/-! ### First-seen deduplication: basic properties -/

theorem posOf_cons (x : Nat × Nat) (xs : List (Nat × Nat)) (e : Nat × Nat) :
    posOf (x :: xs) e = if x = e then 0 else posOf xs e + 1 := rfl

theorem mem_insertNew_self (s : List (Nat × Nat)) (e : Nat × Nat) :
    e ∈ insertNew s e := by
  unfold insertNew
  by_cases h : e ∈ s
  · rwa [if_pos h]
  · rw [if_neg h]; simp

theorem insertNew_append (s : List (Nat × Nat)) (e : Nat × Nat) :
    ∃ t, insertNew s e = s ++ t := by
  unfold insertNew
  by_cases h : e ∈ s
  · exact ⟨[], by rw [if_pos h]; simp⟩
  · exact ⟨[e], by rw [if_neg h]⟩

theorem mem_insertNew_of_mem {s : List (Nat × Nat)} {a : Nat × Nat}
    (e : Nat × Nat) (h : a ∈ s) : a ∈ insertNew s e := by
  obtain ⟨t, ht⟩ := insertNew_append s e
  rw [ht]; exact List.mem_append_left _ h

theorem posOf_append_of_mem {s : List (Nat × Nat)} {a : Nat × Nat}
    (t : List (Nat × Nat)) (h : a ∈ s) : posOf (s ++ t) a = posOf s a := by
  induction s with
  | nil => simp at h
  | cons x xs ih =>
      rw [List.cons_append]
      unfold posOf
      by_cases hx : x = a
      · rw [if_pos hx, if_pos hx]
      · rw [if_neg hx, if_neg hx]
        have ha : a ∈ xs := by
          rcases List.mem_cons.mp h with h1 | h1
          · exact absurd h1.symm hx
          · exact h1
        rw [ih ha]

theorem posOf_append_self {s : List (Nat × Nat)} {e : Nat × Nat}
    (h : e ∉ s) : posOf (s ++ [e]) e = s.length := by
  induction s with
  | nil => simp [posOf]
  | cons x xs ih =>
      rw [List.cons_append]
      unfold posOf
      have hx : x ≠ e := fun hc => h (by simp [hc])
      rw [if_neg hx, ih (fun hc => h (List.mem_cons_of_mem _ hc))]
      simp

theorem posOf_insertNew_of_mem {s : List (Nat × Nat)} {a : Nat × Nat}
    (e : Nat × Nat) (h : a ∈ s) : posOf (insertNew s e) a = posOf s a := by
  obtain ⟨t, ht⟩ := insertNew_append s e
  rw [ht, posOf_append_of_mem t h]

theorem lookup_mkMids :
    ∀ (es : List (Nat × Nat)) (V : Nat) (e : Nat × Nat),
      (mkMids V es).lookup e = if e ∈ es then some (V + posOf es e) else none
  | [], V, e => by simp [mkMids]
  | f :: fs, V, e => by
      unfold mkMids
      rw [List.lookup_cons]
      by_cases hef : e = f
      · subst hef
        simp [posOf]
      · have hbeq : (e == f) = false := by simpa using hef
        rw [hbeq]
        rw [lookup_mkMids fs (V + 1) e]
        simp only [List.mem_cons]
        by_cases hm : e ∈ fs
        · rw [if_pos hm, if_pos (Or.inr hm)]
          rw [posOf_cons, if_neg (fun hc => hef hc.symm)]
          exact congrArg some (by omega)
        · rw [if_neg hm, if_neg (by simp [hef, hm])]

theorem mkMids_append :
    ∀ (s : List (Nat × Nat)) (V : Nat) (e : Nat × Nat),
      mkMids V (s ++ [e]) = mkMids V s ++ [(e, V + s.length)]
  | [], V, e => by simp [mkMids]
  | f :: fs, V, e => by
      rw [List.cons_append]
      unfold mkMids
      rw [mkMids_append fs (V + 1) e]
      simp only [List.cons_append, List.length_cons]
      rw [show V + (fs.length + 1) = V + 1 + fs.length from by omega]

/-! ### Characterization of one subdivision pass -/

theorem edgeMid_spec {α : Type} [Field α] (orig : List (V3 α))
    (seen : List (Nat × Nat)) (e : Nat × Nat)
    (he1 : e.1 < orig.length) (he2 : e.2 < orig.length) :
    EdgeMidpoint (orig ++ seen.map (midValue orig)) (mkMids orig.length seen) e
      = (orig.length + posOf (insertNew seen e) e,
         orig ++ (insertNew seen e).map (midValue orig),
         mkMids orig.length (insertNew seen e)) := by
  unfold EdgeMidpoint
  rw [lookup_mkMids]
  by_cases hmem : e ∈ seen
  · rw [if_pos hmem]
    unfold insertNew
    rw [if_pos hmem]
  · rw [if_neg hmem]
    have hmv : midValue (orig ++ seen.map (midValue orig)) e = midValue orig e := by
      unfold midValue
      rw [List.getD_append _ _ _ _ he1, List.getD_append _ _ _ _ he2]
    unfold insertNew
    rw [if_neg hmem, hmv, mkMids_append, posOf_append_self hmem]
    simp [Prod.ext_iff, List.append_assoc]

theorem triStep_spec {α : Type} [Field α] (orig : List (V3 α))
    (seen : List (Nat × Nat)) (acc : List Nat) (t : Nat × Nat × Nat)
    (h1 : t.1 < orig.length) (h2 : t.2.1 < orig.length)
    (h3 : t.2.2 < orig.length) :
    subdivTriStep (orig ++ seen.map (midValue orig), mkMids orig.length seen, acc) t
      = (orig ++ (seen3 seen t).map (midValue orig),
         mkMids orig.length (seen3 seen t),
         acc ++ [t.1,
           orig.length + posOf (seen3 seen t) (canonEdge t.1 t.2.1),
           orig.length + posOf (seen3 seen t) (canonEdge t.2.2 t.1),
           orig.length + posOf (seen3 seen t) (canonEdge t.1 t.2.1),
           t.2.1,
           orig.length + posOf (seen3 seen t) (canonEdge t.2.1 t.2.2),
           orig.length + posOf (seen3 seen t) (canonEdge t.1 t.2.1),
           orig.length + posOf (seen3 seen t) (canonEdge t.2.1 t.2.2),
           orig.length + posOf (seen3 seen t) (canonEdge t.2.2 t.1),
           orig.length + posOf (seen3 seen t) (canonEdge t.2.2 t.1),
           orig.length + posOf (seen3 seen t) (canonEdge t.2.1 t.2.2),
           t.2.2]) := by
  have he0a := canonEdge_fst_lt h1 h2
  have he0b := canonEdge_snd_lt h1 h2
  have he1a := canonEdge_fst_lt h2 h3
  have he1b := canonEdge_snd_lt h2 h3
  have he2a := canonEdge_fst_lt h3 h1
  have he2b := canonEdge_snd_lt h3 h1
  simp only [subdivTriStep]
  rw [edgeMid_spec orig seen (canonEdge t.1 t.2.1) he0a he0b]
  rw [edgeMid_spec orig (insertNew seen (canonEdge t.1 t.2.1))
    (canonEdge t.2.1 t.2.2) he1a he1b]
  rw [edgeMid_spec orig
    (insertNew (insertNew seen (canonEdge t.1 t.2.1)) (canonEdge t.2.1 t.2.2))
    (canonEdge t.2.2 t.1) he2a he2b]
  have hm0 : posOf (insertNew (insertNew (insertNew seen (canonEdge t.1 t.2.1))
        (canonEdge t.2.1 t.2.2)) (canonEdge t.2.2 t.1)) (canonEdge t.1 t.2.1)
      = posOf (insertNew seen (canonEdge t.1 t.2.1)) (canonEdge t.1 t.2.1) := by
    rw [posOf_insertNew_of_mem _ (mem_insertNew_of_mem _ (mem_insertNew_self _ _)),
      posOf_insertNew_of_mem _ (mem_insertNew_self _ _)]
  have hm1 : posOf (insertNew (insertNew (insertNew seen (canonEdge t.1 t.2.1))
        (canonEdge t.2.1 t.2.2)) (canonEdge t.2.2 t.1)) (canonEdge t.2.1 t.2.2)
      = posOf (insertNew (insertNew seen (canonEdge t.1 t.2.1))
          (canonEdge t.2.1 t.2.2)) (canonEdge t.2.1 t.2.2) := by
    rw [posOf_insertNew_of_mem _ (mem_insertNew_self _ _)]
  simp only [seen3]
  rw [hm0, hm1]

theorem subdivFold_spec {α : Type} [Field α] (orig : List (V3 α)) :
    ∀ (ts : List (Nat × Nat × Nat)) (seen : List (Nat × Nat)) (acc : List Nat),
      (∀ t ∈ ts, t.1 < orig.length ∧ t.2.1 < orig.length ∧ t.2.2 < orig.length) →
      ts.foldl subdivTriStep
          (orig ++ seen.map (midValue orig), mkMids orig.length seen, acc)
        = (orig ++ (seenAfter seen ts).map (midValue orig),
           mkMids orig.length (seenAfter seen ts),
           acc ++ childFrom orig.length seen ts)
  | [], seen, acc, _ => by simp [seenAfter, childFrom]
  | t :: ts, seen, acc, hv => by
      rw [List.foldl_cons]
      obtain ⟨hb1, hb2, hb3⟩ := hv t (List.mem_cons_self t ts)
      rw [triStep_spec orig seen acc t hb1 hb2 hb3]
      refine (subdivFold_spec orig ts (seen3 seen t) _
        (fun t' ht' => hv t' (List.mem_cons_of_mem _ ht'))).trans ?_
      simp only [seenAfter, childFrom, triEdges, seen3, List.foldl_cons,
        List.foldl_nil, List.append_assoc]

/-- Running `seenAfter` from the empty seen-set is exactly first-seen
deduplication of the edge stream. -/
theorem seenAfter_eq_firstDedup (idxs : List Nat) :
    seenAfter [] (triangleList idxs) = firstDedup (edgeStream idxs) := by
  unfold firstDedup edgeStream seenAfter
  rw [List.foldl_flatten, List.foldl_map]

/-- Characterization of `demo::SubdivideInPlace` on a mesh whose indices
are in range: the output vertex pool is the input pool followed by one
midpoint per distinct canonical edge, in order of first occurrence, and
the output index list is the four-children expansion with first-seen
midpoint numbering. -/
theorem subdiv_spec {α : Type} [Field α] (m : Mesh α)
    (hv : ∀ i ∈ m.indices, i < m.vertices.length) :
    (SubdivideInPlace m).vertices
      = m.vertices ++ (firstDedup (edgeStream m.indices)).map (midValue m.vertices) ∧
    (SubdivideInPlace m).indices
      = childFrom m.vertices.length [] (triangleList m.indices) := by
  have hv' : ∀ t ∈ triangleList m.indices,
      t.1 < m.vertices.length ∧ t.2.1 < m.vertices.length ∧ t.2.2 < m.vertices.length := by
    intro t ht
    obtain ⟨ha, hb, hc⟩ := triangleList_mem m.indices t ht
    exact ⟨hv _ ha, hv _ hb, hv _ hc⟩
  have h := subdivFold_spec m.vertices (triangleList m.indices) [] [] hv'
  simp only [List.map_nil, List.append_nil, mkMids, List.nil_append] at h
  rw [← seenAfter_eq_firstDedup]
  constructor
  · show ((triangleList m.indices).foldl subdivTriStep (m.vertices, [], [])).1 = _
    rw [h]
  · show ((triangleList m.indices).foldl subdivTriStep (m.vertices, [], [])).2.2 = _
    rw [h]

theorem childFrom_length :
    ∀ (ts : List (Nat × Nat × Nat)) (V0 : Nat) (seen : List (Nat × Nat)),
      (childFrom V0 seen ts).length = 12 * ts.length
  | [], _, _ => rfl
  | t :: ts, V0, seen => by
      simp only [childFrom, List.length_append, List.length_cons, List.length_nil]
      rw [childFrom_length ts V0 _]
      ring

theorem natTriStep_acc_len (s : Nat × List ((Nat × Nat) × Nat) × List Nat)
    (t : Nat × Nat × Nat) : (natTriStep s t).2.2.length = s.2.2.length + 12 := by
  simp [natTriStep]

theorem natFold_acc_len :
    ∀ (ts : List (Nat × Nat × Nat)) (s : Nat × List ((Nat × Nat) × Nat) × List Nat),
      ((ts.foldl natTriStep s).2.2).length = s.2.2.length + 12 * ts.length
  | [], s => by simp
  | t :: ts, s => by
      rw [List.foldl_cons, natFold_acc_len ts _, natTriStep_acc_len]
      simp [List.length_cons]
      ring

/-- The emitted index list of one subdivision pass has `12 · ⌊n/3⌋`
entries: four children (12 indices) per input triangle. -/
theorem natSubdiv_len (idxs : List Nat) (V : Nat) :
    (natSubdiv idxs V).1.length = 12 * (triangleList idxs).length := by
  show ((triangleList idxs).foldl natTriStep (V, [], [])).2.2.length = _
  rw [natFold_acc_len]
  simp

/-- Index-list length of `SubdivideInPlace`. -/
theorem subdiv_indices_len {α : Type} [Field α] (m : Mesh α) :
    (SubdivideInPlace m).indices.length = 12 * (m.indices.length / 3) := by
  rw [(subdiv_proj m).1, natSubdiv_len, triangleList_length]

/-! ### The geosphere accumulation loop -/

theorem geo_loop_inv {α : Type} [Field α] (a b : α) :
    ∀ L : Nat,
      (((List.range L).foldl geoStep
          (CreateIcosahedron a b, (CreateIcosahedron a b).vertices,
           (CreateIcosahedron a b).normals, (CreateIcosahedron a b).indices,
           [0])).1.indices.length = 60 * 4 ^ L) ∧
      (((List.range L).foldl geoStep
          (CreateIcosahedron a b, (CreateIcosahedron a b).vertices,
           (CreateIcosahedron a b).normals, (CreateIcosahedron a b).indices,
           [0])).2.2.2.1.length = 20 * (4 ^ (L + 1) - 1)) ∧
      (((List.range L).foldl geoStep
          (CreateIcosahedron a b, (CreateIcosahedron a b).vertices,
           (CreateIcosahedron a b).normals, (CreateIcosahedron a b).indices,
           [0])).2.2.2.2 = (List.range (L + 1)).map (fun i => 20 * (4 ^ i - 1)))
  | 0 => by
      refine ⟨?_, ?_, ?_⟩ <;>
        simp [CreateIcosahedron, icosahedronIndices, List.range_succ]
  | L + 1 => by
      obtain ⟨h1, h2, h3⟩ := geo_loop_inv a b L
      rw [List.range_succ, List.foldl_append, List.foldl_cons, List.foldl_nil]
      refine ⟨?_, ?_, ?_⟩
      · show (SubdivideInPlace _).indices.length = _
        rw [subdiv_indices_len, h1]
        have hp : 0 < 4 ^ L := Nat.pos_pow_of_pos L (by norm_num)
        rw [pow_succ]
        omega
      · show (_ ++ (SubdivideInPlace _).indices.map _).length = _
        rw [List.length_append, List.length_map, subdiv_indices_len, h1, h2]
        have hp : 0 < 4 ^ L := Nat.pos_pow_of_pos L (by norm_num)
        rw [pow_succ, pow_succ, pow_succ]
        omega
      · show _ ++ [(((List.range L).foldl geoStep _).2.2.2.1).length] = _
        rw [h2, h3]
        simp [List.range_succ]

theorem getD_map_range (f : Nat → Nat) (n i : Nat) (h : i < n) :
    ((List.range n).map f).getD i 0 = f i := by
  have hlen : i < ((List.range n).map f).length := by simpa using h
  rw [List.getD_eq_getElem _ _ hlen, List.getElem_map, List.getElem_range]

/-- The offset table written by `CreateGeospheres` in closed form:
`offset[i] = 20·(4^i − 1)` for `i < L + 2`. -/
theorem geo_offsets {α : Type} [Field α] (a b : α) (sqrt : α → α) (L : Nat) :
    (CreateGeospheres a b sqrt L).2
      = (List.range (L + 2)).map (fun i => 20 * (4 ^ i - 1)) := by
  obtain ⟨h1, h2, h3⟩ := geo_loop_inv a b L
  show ((List.range L).foldl geoStep _).2.2.2.2
      ++ [((List.range L).foldl geoStep _).2.2.2.1.length] = _
  rw [h2, h3]
  simp [List.range_succ]

/-- Claim C7: for every subdivision-level count `L`, the subdivision-level
index-offset array written by `CreateGeospheres` has length `L + 2`,
starts with `offset[0] = 0`, is strictly increasing, and
`offset[i+1] - offset[i] = 60 · 4^i` — the index count of level `i`'s
triangle list in the shared index buffer — for every level `i ≤ L`. -/
theorem geosphere_offsets_claim {α : Type} [Field α] (a b : α)
    (sqrt : α → α) (L : Nat) :
    (CreateGeospheres a b sqrt L).2.length = L + 2 ∧
    (CreateGeospheres a b sqrt L).2.getD 0 0 = 0 ∧
    (∀ i, i ≤ L →
      (CreateGeospheres a b sqrt L).2.getD (i + 1) 0
        - (CreateGeospheres a b sqrt L).2.getD i 0 = 60 * 4 ^ i) ∧
    (∀ i, i ≤ L →
      (CreateGeospheres a b sqrt L).2.getD i 0
        < (CreateGeospheres a b sqrt L).2.getD (i + 1) 0) := by
  rw [geo_offsets]
  refine ⟨by simp, ?_, ?_, ?_⟩
  · rw [getD_map_range _ _ _ (by omega)]
    norm_num
  · intro i hi
    rw [getD_map_range _ _ _ (by omega), getD_map_range _ _ _ (by omega)]
    have hp : 0 < 4 ^ i := Nat.pos_pow_of_pos i (by norm_num)
    rw [pow_succ]
    omega
  · intro i hi
    rw [getD_map_range _ _ _ (by omega), getD_map_range _ _ _ (by omega)]
    have hp : 0 < 4 ^ i := Nat.pos_pow_of_pos i (by norm_num)
    rw [pow_succ]
    omega

/-- Witness for C7 at `L = 1`, level `i = 0`, over `ℚ`. -/
theorem geosphere_offsets_claim_witness :
    (0 : Nat) ≤ 1 ∧
    ((CreateGeospheres (α := ℚ) 0 0 id 1).2.getD 1 0
      - (CreateGeospheres (α := ℚ) 0 0 id 1).2.getD 0 0 = 60 * 4 ^ 0) ∧
    ((CreateGeospheres (α := ℚ) 0 0 id 1).2.getD 0 0
      < (CreateGeospheres (α := ℚ) 0 0 id 1).2.getD 1 0) :=
  ⟨by decide,
   (geosphere_offsets_claim (α := ℚ) 0 0 id 1).2.2.1 0 (by decide),
   (geosphere_offsets_claim (α := ℚ) 0 0 id 1).2.2.2 0 (by decide)⟩

/-! ### Claims about the subdivider -/

set_option maxRecDepth 20000 in
theorem I1lit_length : I1lit.length = 240 := by decide

theorem icosahedronIndices_length : icosahedronIndices.length = 60 := by decide

/-- Claim C8: for every input mesh whose index list length is a multiple of
3 (with indices in range of the vertex pool), `SubdivideInPlace` emits,
for each input triangle `(v0,v1,v2)` in input order, exactly the 4 child
triangles `(v0,m01,m20), (m01,v1,m12), (m01,m12,m20), (m20,m12,v2)`
(`childFrom`, which numbers each midpoint at the first occurrence of its
canonicalized `(min,max)` edge and reuses it thereafter), and each
midpoint vertex is the component-wise average (`midValue`) of its edge's
endpoints, appended in order of first edge occurrence. -/
theorem subdivide_children_claim {α : Type} [Field α] (m : Mesh α)
    (h3 : m.indices.length % 3 = 0)
    (hv : ∀ i ∈ m.indices, i < m.vertices.length) :
    (SubdivideInPlace m).indices
      = childFrom m.vertices.length [] (triangleList m.indices) ∧
    (SubdivideInPlace m).vertices
      = m.vertices ++ (firstDedup (edgeStream m.indices)).map (midValue m.vertices) := by
  obtain ⟨h1, h2⟩ := subdiv_spec m hv
  exact ⟨h2, h1⟩

/-- Witness for C8: one triangle over `ℚ`. -/
theorem subdivide_children_claim_witness :
    (⟨[⟨0, 0, 0⟩, ⟨1, 0, 0⟩, ⟨0, 1, 0⟩], [], [0, 1, 2], []⟩ : Mesh ℚ).indices.length % 3 = 0 ∧
    (∀ i ∈ (⟨[⟨0, 0, 0⟩, ⟨1, 0, 0⟩, ⟨0, 1, 0⟩], [], [0, 1, 2], []⟩ : Mesh ℚ).indices,
      i < (⟨[⟨0, 0, 0⟩, ⟨1, 0, 0⟩, ⟨0, 1, 0⟩], [], [0, 1, 2], []⟩ : Mesh ℚ).vertices.length) ∧
    ((SubdivideInPlace (⟨[⟨0, 0, 0⟩, ⟨1, 0, 0⟩, ⟨0, 1, 0⟩], [], [0, 1, 2], []⟩ : Mesh ℚ)).indices
        = childFrom (⟨[⟨0, 0, 0⟩, ⟨1, 0, 0⟩, ⟨0, 1, 0⟩], [], [0, 1, 2], []⟩ : Mesh ℚ).vertices.length []
            (triangleList (⟨[⟨0, 0, 0⟩, ⟨1, 0, 0⟩, ⟨0, 1, 0⟩], [], [0, 1, 2], []⟩ : Mesh ℚ).indices) ∧
      (SubdivideInPlace (⟨[⟨0, 0, 0⟩, ⟨1, 0, 0⟩, ⟨0, 1, 0⟩], [], [0, 1, 2], []⟩ : Mesh ℚ)).vertices
        = (⟨[⟨0, 0, 0⟩, ⟨1, 0, 0⟩, ⟨0, 1, 0⟩], [], [0, 1, 2], []⟩ : Mesh ℚ).vertices
            ++ (firstDedup (edgeStream (⟨[⟨0, 0, 0⟩, ⟨1, 0, 0⟩, ⟨0, 1, 0⟩], [], [0, 1, 2], []⟩ : Mesh ℚ).indices)).map
                (midValue (⟨[⟨0, 0, 0⟩, ⟨1, 0, 0⟩, ⟨0, 1, 0⟩], [], [0, 1, 2], []⟩ : Mesh ℚ).vertices)) :=
  ⟨by decide, by decide,
   subdivide_children_claim (⟨[⟨0, 0, 0⟩, ⟨1, 0, 0⟩, ⟨0, 1, 0⟩], [], [0, 1, 2], []⟩ : Mesh ℚ)
     (by decide) (by decide)⟩

/-- Claim C3: subdividing a mesh with `V` vertices, `E` distinct
(canonicalized) edges and `F` triangles once yields exactly `V + E`
vertices — one new midpoint per distinct edge, however many triangles
share it — and `4·F` triangles; in particular one subdivision of the base
icosahedron (V=12, E=30, F=20) yields 42 vertices and 80 triangles, and a
second yields 162 vertices and 320 triangles. -/
theorem subdivide_growth_claim {α : Type} [Field α] :
    (∀ (m : Mesh α) (F : Nat), m.indices.length = 3 * F →
      (∀ i ∈ m.indices, i < m.vertices.length) →
      (SubdivideInPlace m).vertices.length
          = m.vertices.length + (firstDedup (edgeStream m.indices)).length ∧
      (SubdivideInPlace m).indices.length = 3 * (4 * F)) ∧
    (∀ a b : α,
      (SubdivideInPlace (CreateIcosahedron a b)).vertices.length = 42 ∧
      (SubdivideInPlace (CreateIcosahedron a b)).indices.length = 3 * 80 ∧
      (SubdivideInPlace (SubdivideInPlace (CreateIcosahedron a b))).vertices.length = 162 ∧
      (SubdivideInPlace (SubdivideInPlace (CreateIcosahedron a b))).indices.length = 3 * 320) := by
  constructor
  · intro m F hF hv
    constructor
    · rw [(subdiv_spec m hv).1]
      simp
    · rw [subdiv_indices_len, hF, Nat.mul_div_cancel_left F (by norm_num)]
      ring
  · intro a b
    have hico_idx : (CreateIcosahedron a b).indices = icosahedronIndices := rfl
    have hico_len : (CreateIcosahedron a b).vertices.length = 12 := rfl
    have h1v : (SubdivideInPlace (CreateIcosahedron a b)).vertices.length = 42 := by
      rw [(subdiv_proj (CreateIcosahedron a b)).2.1, hico_idx, hico_len,
        natSubdiv_ico_count]
    have h1i : (SubdivideInPlace (CreateIcosahedron a b)).indices = I1lit := by
      rw [(subdiv_proj (CreateIcosahedron a b)).1, hico_idx, hico_len,
        natSubdiv_ico_idx]
    refine ⟨h1v, ?_, ?_, ?_⟩
    · rw [h1i, I1lit_length]
    · rw [(subdiv_proj (SubdivideInPlace (CreateIcosahedron a b))).2.1, h1i, h1v,
        natSubdiv_I1_count]
    · rw [subdiv_indices_len, h1i, I1lit_length]

/-- Witness for C3: one triangle over `ℚ` (`F = 1`). -/
theorem subdivide_growth_claim_witness :
    (⟨[⟨0, 0, 0⟩, ⟨1, 0, 0⟩, ⟨0, 1, 0⟩], [], [0, 1, 2], []⟩ : Mesh ℚ).indices.length = 3 * 1 ∧
    (∀ i ∈ (⟨[⟨0, 0, 0⟩, ⟨1, 0, 0⟩, ⟨0, 1, 0⟩], [], [0, 1, 2], []⟩ : Mesh ℚ).indices,
      i < (⟨[⟨0, 0, 0⟩, ⟨1, 0, 0⟩, ⟨0, 1, 0⟩], [], [0, 1, 2], []⟩ : Mesh ℚ).vertices.length) ∧
    ((SubdivideInPlace (⟨[⟨0, 0, 0⟩, ⟨1, 0, 0⟩, ⟨0, 1, 0⟩], [], [0, 1, 2], []⟩ : Mesh ℚ)).vertices.length
        = (⟨[⟨0, 0, 0⟩, ⟨1, 0, 0⟩, ⟨0, 1, 0⟩], [], [0, 1, 2], []⟩ : Mesh ℚ).vertices.length
          + (firstDedup (edgeStream (⟨[⟨0, 0, 0⟩, ⟨1, 0, 0⟩, ⟨0, 1, 0⟩], [], [0, 1, 2], []⟩ : Mesh ℚ).indices)).length ∧
      (SubdivideInPlace (⟨[⟨0, 0, 0⟩, ⟨1, 0, 0⟩, ⟨0, 1, 0⟩], [], [0, 1, 2], []⟩ : Mesh ℚ)).indices.length
        = 3 * (4 * 1)) :=
  ⟨by decide, by decide,
   (subdivide_growth_claim (α := ℚ)).1
     (⟨[⟨0, 0, 0⟩, ⟨1, 0, 0⟩, ⟨0, 1, 0⟩], [], [0, 1, 2], []⟩ : Mesh ℚ) 1
     (by decide) (by decide)⟩

/-! ### Claims about the spherifier and the pipeline precondition -/

/-- Counterexample for C9: on a vertex pool containing the origin, the
source spherifier does *not* fail fast — it silently produces a
full-length result (under exact arithmetic the origin vertex is scaled by
`radius / sqrt 0`; in the C++ float build this is an `inf`/NaN vertex,
and in Lean's division-by-zero convention it stays at the origin), while
the spec's fail-fast behaviour (`SpherifyChecked`) signals an error. -/
theorem spherify_failfast_cex :
    (SpherifyInPlace (α := ℚ) id 1 ⟨[⟨0, 0, 0⟩], [], [], []⟩).vertices = [⟨0, 0, 0⟩] ∧
    SpherifyChecked (α := ℚ) id 1 ⟨[⟨0, 0, 0⟩], [], [], []⟩ = none := by
  constructor
  · simp [SpherifyInPlace]
  · unfold SpherifyChecked
    rw [if_pos]
    exact ⟨⟨0, 0, 0⟩, by simp, by simp⟩

/-- Claim C9, amended: the spherifier has no zero-norm guard: fed a vertex
pool containing a vertex at the origin it still applies
`v *= radius / sqrt(|v|²)` to every vertex and silently returns a result
of the same length (no fail-fast), whereas the spec-side checked
spherifier rejects such a pool. -/
theorem spherify_no_guard_claim {α : Type} [Field α] [DecidableEq α]
    (sqrt : α → α) (radius : α) (m : Mesh α)
    (h : (⟨0, 0, 0⟩ : V3 α) ∈ m.vertices) :
    (SpherifyInPlace sqrt radius m).vertices.length = m.vertices.length ∧
    SpherifyChecked sqrt radius m = none := by
  constructor
  · simp [SpherifyInPlace]
  · unfold SpherifyChecked
    rw [if_pos ⟨⟨0, 0, 0⟩, h, by simp⟩]

/-- Witness for C9's amended claim at the degenerate one-vertex pool. -/
theorem spherify_no_guard_claim_witness :
    ((⟨0, 0, 0⟩ : V3 ℚ) ∈ (⟨[⟨0, 0, 0⟩], [], [], []⟩ : Mesh ℚ).vertices) ∧
    ((SpherifyInPlace (α := ℚ) id 1 ⟨[⟨0, 0, 0⟩], [], [], []⟩).vertices.length
        = (⟨[⟨0, 0, 0⟩], [], [], []⟩ : Mesh ℚ).vertices.length ∧
      SpherifyChecked (α := ℚ) id 1 ⟨[⟨0, 0, 0⟩], [], [], []⟩ = none) :=
  ⟨by decide, spherify_no_guard_claim id 1 _ (by decide)⟩

/-- Claim C10: `CreateAsteroidsFromGeospheres` has the undocumented
precondition `subdivLevelCount ≤ meshInstanceCount`: it aborts (the
leading `assert`, modelled as `none`) exactly when the requested instance
count is smaller than the subdivision-level count, before generating
anything. -/
theorem asteroids_assert_precondition_claim {α : Type} [Field α]
    (a b : α) (sqrt : α → α) (noise : α → α → α → α → α → α)
    (L inst : Nat) (draws : Nat → α × α) :
    (CreateAsteroidsFromGeospheres a b sqrt noise L inst draws = none) ↔ inst < L := by
  unfold CreateAsteroidsFromGeospheres
  by_cases h : L ≤ inst
  · simp [h]
  · simp [h]
    omega

/-! ### Slicing a pool of equal-length blocks -/

theorem getD_map_range' {β : Type} (f : Nat → β) (d : β) (n i : Nat)
    (h : i < n) : ((List.range n).map f).getD i d = f i := by
  have hlen : i < ((List.range n).map f).length := by simpa using h
  rw [List.getD_eq_getElem _ _ hlen, List.getElem_map, List.getElem_range]

theorem flatten_map_range_length {β : Type} :
    ∀ (n K : Nat) (f : Nat → List β), (∀ m, m < n → (f m).length = K) →
      (((List.range n).map f).flatten).length = n * K
  | 0, _, _, _ => by simp
  | n + 1, K, f, hK => by
      rw [List.range_succ, List.map_append, List.flatten_append,
        List.length_append,
        flatten_map_range_length n K f (fun m hm => hK m (by omega))]
      simp only [List.map_cons, List.map_nil, List.flatten_cons,
        List.flatten_nil, List.append_nil, List.length_nil]
      rw [hK n (by omega)]
      ring

theorem flatten_map_range_slice {β : Type} :
    ∀ (n K : Nat) (f : Nat → List β), (∀ m, m < n → (f m).length = K) →
      ∀ m, m < n →
        ((((List.range n).map f).flatten).drop (m * K)).take K = f m
  | 0, _, _, _, m, hm => by omega
  | n + 1, K, f, hK, m, hm => by
      rw [List.range_succ, List.map_append, List.flatten_append]
      have hlen : (((List.range n).map f).flatten).length = n * K :=
        flatten_map_range_length n K f (fun m' hm' => hK m' (by omega))
      by_cases hmn : m < n
      · rw [List.drop_append_of_le_length (by rw [hlen]; exact Nat.mul_le_mul_right K (by omega)),
          List.take_append_of_le_length (by rw [List.length_drop, hlen]; calc
            K ≤ (n - m) * K := Nat.le_mul_of_pos_left K (by omega)
            _ = n * K - m * K := Nat.sub_mul n m K)]
        exact flatten_map_range_slice n K f (fun m' hm' => hK m' (by omega)) m hmn
      · have hmeq : m = n := by omega
        subst hmeq
        rw [← hlen, List.drop_left]
        simp only [List.map_cons, List.map_nil, List.flatten_cons,
          List.flatten_nil, List.append_nil]
        rw [← hK m (by omega), List.take_length]

/-! ### Claims about the asteroid pipeline -/

/-- Claim C5: the pipeline is deterministic.  The `std::mt19937` generator
is seeded locally from `rngSeed` and advanced instance by instance, so a
fixed seed induces a fixed per-instance draw stream; the run's entire
output (vertices, normals, UVs, indices, `subdivIndexOffsets` and
`vertexCountPerMesh`) is a function of the seed-induced draws actually
consumed: any two draw streams that agree on the first
`meshInstanceCount` per-instance draws — in particular the streams of two
runs from the same seed — give identical output. -/
theorem pipeline_determinism_claim {α : Type} [Field α] (a b : α)
    (sqrt : α → α) (noise : α → α → α → α → α → α) (L inst : Nat)
    (d1 d2 : Nat → α × α) (h : ∀ m, m < inst → d1 m = d2 m) :
    CreateAsteroidsFromGeospheres a b sqrt noise L inst d1
      = CreateAsteroidsFromGeospheres a b sqrt noise L inst d2 := by
  unfold CreateAsteroidsFromGeospheres
  by_cases hle : L ≤ inst
  · rw [if_pos hle, if_pos hle]
    have hp : (List.range inst).map (fun m =>
        asteroidPiece sqrt noise (CreateGeospheres a b sqrt L).1 (d1 m))
        = (List.range inst).map (fun m =>
            asteroidPiece sqrt noise (CreateGeospheres a b sqrt L).1 (d2 m)) :=
      List.map_congr_left (fun m hm => by rw [h m (List.mem_range.mp hm)])
    rw [hp]
  · rw [if_neg hle, if_neg hle]

/-- Witness for C5 (`L = 0`, one instance, over `ℚ`). -/
theorem pipeline_determinism_claim_witness :
    (∀ m, m < 1 →
      (fun _ : Nat => ((0 : ℚ), (0 : ℚ))) m = (fun _ : Nat => ((0 : ℚ), (0 : ℚ))) m) ∧
    CreateAsteroidsFromGeospheres (α := ℚ) 0 0 id (fun _ _ _ _ _ => 0) 0 1
        (fun _ => (0, 0))
      = CreateAsteroidsFromGeospheres (α := ℚ) 0 0 id (fun _ _ _ _ _ => 0) 0 1
        (fun _ => (0, 0)) :=
  ⟨fun _ _ => rfl,
   pipeline_determinism_claim 0 0 id (fun _ _ _ _ _ => 0) 0 1 _ _ (fun _ _ => rfl)⟩

/-- Claim C4: noise displacement maps each base-geosphere vertex `v` to
`v * (noise3D(v*noiseScale)*radiusScale + radiusBias)` (with
`noiseScale = 0.5`, `radiusScale = 0.9`, `radiusBias = 0.3`) and never
changes topology: the pipeline output holds the single shared
base-geosphere index buffer, each instance's vertex slice is exactly the
displaced copy of the base vertex pool, and in `makeMeshes` all
instances (same subdivision level) copy the identical index-buffer
slice, differing only in vertex data. -/
theorem asteroid_displacement_claim {α : Type} [LinearOrderedField α]
    (a b : α) (sqrt : α → α) (noise : α → α → α → α → α → α)
    (draws : Nat → α × α) (tb : Nat → List (V3 α) × List (V3 α))
    (L inst : Nat) (hLI : L ≤ inst) :
    ∃ mesh offs vcpm,
      CreateAsteroidsFromGeospheres a b sqrt noise L inst draws
          = some (mesh, offs, vcpm) ∧
      mesh.indices = (CreateGeospheres a b sqrt L).1.indices ∧
      (∀ m, m < inst → (mesh.vertices.drop (m * vcpm)).take vcpm
          = (CreateGeospheres a b sqrt L).1.vertices.map
              (displaceVertex noise (draws m).1 (draws m).2)) ∧
      (∃ packed, makeMeshes a b sqrt noise draws tb inst L = some packed ∧
        ∀ i j, i < inst → j < inst →
          (packed.getD i (fun _ => 0, [])).2 = (packed.getD j (fun _ => 0, [])).2) := by
  unfold makeMeshes CreateAsteroidsFromGeospheres
  rw [if_pos hLI]
  refine ⟨_, _, _, rfl, rfl, ?_, ?_⟩
  · intro m hm
    show ((((List.range inst).map (fun m' =>
        asteroidPiece sqrt noise (CreateGeospheres a b sqrt L).1 (draws m'))).map
          Prod.fst).flatten.drop
            (m * (CreateGeospheres a b sqrt L).1.vertices.length)).take
          (CreateGeospheres a b sqrt L).1.vertices.length = _
    rw [List.map_map]
    rw [flatten_map_range_slice inst (CreateGeospheres a b sqrt L).1.vertices.length
      (Prod.fst ∘ fun m' =>
        asteroidPiece sqrt noise (CreateGeospheres a b sqrt L).1 (draws m'))
      (fun m' _ => by
        show ((CreateGeospheres a b sqrt L).1.vertices.map
          (displaceVertex noise (draws m').1 (draws m').2)).length = _
        simp)
      m hm]
    rfl
  · refine ⟨_, rfl, ?_⟩
    intro i j hi hj
    rw [getD_map_range' _ _ inst i hi, getD_map_range' _ _ inst j hj]

/-- Witness for C4 (`L = 0`, one instance, over `ℚ`). -/
theorem asteroid_displacement_claim_witness :
    (0 : Nat) ≤ 1 ∧
    (∃ mesh offs vcpm,
      CreateAsteroidsFromGeospheres (α := ℚ) 0 0 id (fun _ _ _ _ _ => 0) 0 1
          (fun _ => (0, 0)) = some (mesh, offs, vcpm) ∧
      mesh.indices = (CreateGeospheres (α := ℚ) 0 0 id 0).1.indices ∧
      (∀ m, m < 1 → (mesh.vertices.drop (m * vcpm)).take vcpm
          = (CreateGeospheres (α := ℚ) 0 0 id 0).1.vertices.map
              (displaceVertex (fun _ _ _ _ _ => 0) ((fun _ : Nat => ((0 : ℚ), (0 : ℚ))) m).1
                ((fun _ : Nat => ((0 : ℚ), (0 : ℚ))) m).2)) ∧
      (∃ packed, makeMeshes (α := ℚ) 0 0 id (fun _ _ _ _ _ => 0) (fun _ => (0, 0))
            (fun _ => ([], [])) 1 0 = some packed ∧
        ∀ i j, i < 1 → j < 1 →
          (packed.getD i (fun _ => 0, [])).2 = (packed.getD j (fun _ => 0, [])).2)) :=
  ⟨by decide,
   asteroid_displacement_claim 0 0 id (fun _ _ _ _ _ => 0) (fun _ => (0, 0))
     (fun _ => ([], [])) 0 1 (by decide)⟩

/-! ### The combined vertex pool at three subdivision levels -/

theorem geo_w1 {α : Type} [Field α] (a b : α) :
    (SubdivideInPlace (CreateIcosahedron a b)).vertices.length = 42 ∧
    (SubdivideInPlace (CreateIcosahedron a b)).indices = I1lit :=
  ⟨by rw [(subdiv_proj (CreateIcosahedron a b)).2.1]
      exact natSubdiv_ico_count,
   by rw [(subdiv_proj (CreateIcosahedron a b)).1]
      exact natSubdiv_ico_idx⟩

theorem geo_w2 {α : Type} [Field α] (a b : α) :
    (SubdivideInPlace (SubdivideInPlace (CreateIcosahedron a b))).vertices.length = 162 ∧
    (SubdivideInPlace (SubdivideInPlace (CreateIcosahedron a b))).indices = I2lit :=
  ⟨by rw [(subdiv_proj (SubdivideInPlace (CreateIcosahedron a b))).2.1,
        (geo_w1 a b).1, (geo_w1 a b).2]
      exact natSubdiv_I1_count,
   by rw [(subdiv_proj (SubdivideInPlace (CreateIcosahedron a b))).1,
        (geo_w1 a b).1, (geo_w1 a b).2]
      exact natSubdiv_I1_idx⟩

theorem geo_w3_len {α : Type} [Field α] (a b : α) :
    (SubdivideInPlace (SubdivideInPlace (SubdivideInPlace
      (CreateIcosahedron a b)))).vertices.length = 642 := by
  rw [(subdiv_proj (SubdivideInPlace (SubdivideInPlace (CreateIcosahedron a b)))).2.1,
    (geo_w2 a b).1, (geo_w2 a b).2]
  exact natSubdiv_I2_count

/-- The combined (all levels 0..3) vertex pool of the geosphere at
`subdivLevelCount = 3` has `12 + 42 + 162 + 642 = 858` vertices. -/
theorem geo_L3_vertices {α : Type} [Field α] (a b : α) (sqrt : α → α) :
    (CreateGeospheres a b sqrt 3).1.vertices.length = 858 := by
  show (((List.range 3).foldl geoStep
    (CreateIcosahedron a b, (CreateIcosahedron a b).vertices,
     (CreateIcosahedron a b).normals, (CreateIcosahedron a b).indices,
     [0])).2.1).length = 858
  rw [show List.range 3 = [0, 1, 2] from rfl, List.foldl_cons, List.foldl_cons,
    List.foldl_cons, List.foldl_nil]
  simp only [geoStep, List.length_append]
  rw [show (CreateIcosahedron a b).vertices.length = 12 from rfl,
    (geo_w1 a b).1, (geo_w2 a b).1, geo_w3_len a b]

theorem CreateUVMap_vertices {α : Type} [Field α] (m : Mesh α) :
    (CreateUVMap m).vertices = m.vertices := rfl

/-- Counterexample for C6: with `subdivLevelCount = 3` the reported
`vertexCountPerMesh` is 858 — the combined vertex count of all
subdivision levels 0..3 (12 + 42 + 162 + 642), since `CreateGeospheres`
swaps the accumulated multi-level pool into the base mesh — not the
level-3 geosphere vertex count 642 the claim states. -/
theorem vertexCount_level3_cex :
    (CreateAsteroidsFromGeospheres (α := ℚ) 0 0 id (fun _ _ _ _ _ => 0) 3 3
        (fun _ => (0, 0))).map (fun r => r.2.2) = some 858 ∧ (858 : Nat) ≠ 642 := by
  constructor
  · unfold CreateAsteroidsFromGeospheres
    rw [if_pos (by norm_num)]
    simp only [Option.map_some']
    exact congrArg some (geo_L3_vertices 0 0 id)
  · decide

/-- Claim C6, amended: with `subdivLevelCount = 3`, the
`vertexCountPerMesh` reported by `CreateAsteroidsFromGeospheres` equals
the *combined* geosphere vertex count over levels 0..3, i.e.
`12 + 42 + 162 + 642 = 858` (the base mesh each instance copies is the
whole multi-level pool), and each requested instance contributes a
vertex-array slice of exactly that length to the output vertex pool. -/
theorem vertexCount_level3_claim {α : Type} [Field α] (a b : α)
    (sqrt : α → α) (noise : α → α → α → α → α → α) (draws : Nat → α × α)
    (inst : Nat) (h : 3 ≤ inst) :
    ∃ mesh offs,
      CreateAsteroidsFromGeospheres a b sqrt noise 3 inst draws
          = some (mesh, offs, 858) ∧
      mesh.vertices.length = inst * 858 ∧
      (∀ m, m < inst →
        ((mesh.vertices.drop (m * 858)).take 858).length = 858) := by
  unfold CreateAsteroidsFromGeospheres
  rw [if_pos h, geo_L3_vertices]
  have hlen : ((((List.range inst).map (fun m =>
      asteroidPiece sqrt noise (CreateGeospheres a b sqrt 3).1 (draws m))).map
        Prod.fst).flatten).length = inst * 858 := by
    rw [List.map_map]
    exact flatten_map_range_length inst 858 _ (fun m _ => by
      show ((CreateGeospheres a b sqrt 3).1.vertices.map
        (displaceVertex noise (draws m).1 (draws m).2)).length = _
      rw [List.length_map, geo_L3_vertices])
  refine ⟨_, _, rfl, hlen, ?_⟩
  intro m hm
  simp only [CreateUVMap_vertices]
  rw [List.length_take, List.length_drop, hlen]
  have h1 : 858 ≤ inst * 858 - m * 858 := by
    have : (m + 1) * 858 ≤ inst * 858 := Nat.mul_le_mul_right 858 (by omega)
    omega
  omega

/-- Witness for C6's amended claim at `inst = 3` over `ℚ`. -/
theorem vertexCount_level3_claim_witness :
    (3 : Nat) ≤ 3 ∧
    (∃ mesh offs,
      CreateAsteroidsFromGeospheres (α := ℚ) 0 0 id (fun _ _ _ _ _ => 0) 3 3
          (fun _ => (0, 0)) = some (mesh, offs, 858) ∧
      mesh.vertices.length = 3 * 858 ∧
      (∀ m, m < 3 →
        ((mesh.vertices.drop (m * 858)).take 858).length = 858)) :=
  ⟨by decide,
   vertexCount_level3_claim 0 0 id (fun _ _ _ _ _ => 0) (fun _ => (0, 0)) 3
     (by decide)⟩

/-! ### The packed-buffer overrun of the tangent write -/

/-- Claim C2, violation found: in the mesh packer's interleaved layout (FLOAT3
position / FLOAT3 normal / FLOAT3 tangent / FLOAT2 texcoord, 11 words per
vertex), the `setVertexData(VES_TEXCOORD, ...)` call stores the vertex's
`u` coordinate (here `7`) in word 9; but the tangent pass then memcpy's a
full `Vector4` (4 words: tangent xyz and the handedness sign) into the
3-word FLOAT3 tangent slot at word 6, overwriting word 9 — the same
vertex's `u` — with the sign (here `1`).  So after all attribute writes
the UV slot no longer equals the UV array entry, contrary to the claim. -/
theorem tangent_write_clobbers_uv :
    (setVertexData2 (setVertexData3 (setVertexData3 (fun _ => (0 : ℚ))
        posOffW 1 0 [⟨1, 2, 3⟩]) normOffW 1 0 [⟨0, 0, 1⟩]) uvOffW 1 0 [⟨7, 8⟩])
      (0 * vertexStrideWords + uvOffW) = 7 ∧
    (packInstance (α := ℚ) 1 0 [⟨1, 2, 3⟩] [⟨0, 0, 1⟩] [⟨7, 8⟩]
        [⟨1, 0, 0⟩] [⟨0, 1, 0⟩]) (0 * vertexStrideWords + uvOffW) = 1 ∧
    (1 : ℚ) ≠ 7 := by
  refine ⟨?_, ?_, by norm_num⟩
  · norm_num [setVertexData2, setVertexData3, bufWriteList, bufWrite,
      vertexStrideWords, posOffW, normOffW, uvOffW, List.range_succ]
  · norm_num [packInstance, generateTangents, setVertexData2, setVertexData3,
      bufWriteList, bufWrite, crossV3, dotV3, vertexStrideWords, posOffW,
      normOffW, tanOffW, uvOffW, List.range_succ]

/-! ### The discarded spherify pass -/

set_option maxRecDepth 20000 in
theorem firstDedup_ico :
    firstDedup (edgeStream icosahedronIndices)
      = [(0, 5), (5, 11), (0, 11), (0, 1), (1, 5), (0, 7), (1, 7), (0, 10),
         (7, 10), (10, 11), (1, 9), (5, 9), (4, 5), (4, 11), (2, 11), (2, 10),
         (6, 10), (6, 7), (7, 8), (1, 8), (3, 4), (4, 9), (3, 9), (2, 3),
         (2, 4), (3, 6), (2, 6), (3, 8), (6, 8), (8, 9)] := by decide

set_option maxRecDepth 20000 in
/-- Claim C1, violation found: with the source's icosahedron constants
`a = sqrt(2/(5-\u221a5))`, `b = sqrt(2/(5+\u221a5))` and default radius 1, the
combined mesh returned by `CreateGeospheres` at `subdivLevelCount = 1` is
*not* spherified: `SpherifyInPlace` is called on the working mesh just
before the accumulated buffers are swapped into the output, so its effect
is discarded.  Output vertex 24 — the first level-1 edge midpoint, the
average of icosahedron vertices 0 and 5 — has squared norm
`(1 + 1/\u221a5)/2 \u2248 0.72`, not 1: it does not lie at distance `radius` from
the origin. -/
theorem createGeospheres_discards_spherify :
    normSq (((CreateGeospheres (Real.sqrt (2 / (5 - Real.sqrt 5)))
        (Real.sqrt (2 / (5 + Real.sqrt 5))) Real.sqrt 1).1.vertices).getD 24
          ⟨0, 0, 0⟩) ≠ 1 := by
  have s5lt : Real.sqrt 5 < 3 := by
    rw [Real.sqrt_lt' (by norm_num)]
    norm_num
  have s5nn : (0 : ℝ) ≤ Real.sqrt 5 := Real.sqrt_nonneg 5
  have hd1 : (0 : ℝ) < 5 - Real.sqrt 5 := by linarith
  have hd2 : (0 : ℝ) < 5 + Real.sqrt 5 := by linarith
  set a := Real.sqrt (2 / (5 - Real.sqrt 5)) with ha_def
  set b := Real.sqrt (2 / (5 + Real.sqrt 5)) with hb_def
  -- step 1: the combined pool at L = 1 is icosahedron ++ subdivided pool
  have hv : ∀ i ∈ (CreateIcosahedron a b).indices,
      i < (CreateIcosahedron a b).vertices.length := by
    have h12 : ∀ i ∈ icosahedronIndices, i < 12 := by decide
    exact fun i hi => h12 i hi
  have hsub := (subdiv_spec (CreateIcosahedron a b) hv).1
  have hstruct : (CreateGeospheres a b Real.sqrt 1).1.vertices
      = (CreateIcosahedron a b).vertices
        ++ (SubdivideInPlace (CreateIcosahedron a b)).vertices := by
    show ((List.range 1).foldl geoStep
      (CreateIcosahedron a b, (CreateIcosahedron a b).vertices,
       (CreateIcosahedron a b).normals, (CreateIcosahedron a b).indices,
       [0])).2.1 = _
    rw [show List.range 1 = [0] from rfl, List.foldl_cons, List.foldl_nil]
    rfl
  rw [hstruct, hsub]
  have hlen12 : ((CreateIcosahedron a b).vertices).length = 12 := rfl
  rw [List.getD_append_right _ _ _ _ (by rw [hlen12]; norm_num),
    List.getD_append_right _ _ _ _ (by rw [hlen12]), hlen12]
  -- step 2: element 0 of the midpoint block is the average of vertices 0 and 5
  have hico_idx : (CreateIcosahedron a b).indices = icosahedronIndices := rfl
  rw [hico_idx, firstDedup_ico,
    show (24 - 12 - 12 : Nat) = 0 from rfl]
  rw [show (List.map (midValue (CreateIcosahedron a b).vertices)
      [(0, 5), (5, 11), (0, 11), (0, 1), (1, 5), (0, 7), (1, 7), (0, 10),
       (7, 10), (10, 11), (1, 9), (5, 9), (4, 5), (4, 11), (2, 11), (2, 10),
       (6, 10), (6, 7), (7, 8), (1, 8), (3, 4), (4, 9), (3, 9), (2, 3),
       (2, 4), (3, 6), (2, 6), (3, 8), (6, 8), (8, 9)]).getD 0 ⟨0, 0, 0⟩
      = midValue (CreateIcosahedron a b).vertices (0, 5) from rfl]
  have hmv : midValue (CreateIcosahedron a b).vertices (0, 5)
      = ⟨(-b + 0) * (1 / 2), (a + b) * (1 / 2), (0 + a) * (1 / 2)⟩ := rfl
  rw [hmv]
  show (-b + 0) * (1 / 2) * ((-b + 0) * (1 / 2))
      + (a + b) * (1 / 2) * ((a + b) * (1 / 2))
      + (0 + a) * (1 / 2) * ((0 + a) * (1 / 2)) ≠ 1
  have haa : a * a = 2 / (5 - Real.sqrt 5) :=
    Real.mul_self_sqrt (le_of_lt (by positivity))
  have hbb : b * b = 2 / (5 + Real.sqrt 5) :=
    Real.mul_self_sqrt (le_of_lt (by positivity))
  have hs5 : Real.sqrt 5 * Real.sqrt 5 = 5 :=
    Real.mul_self_sqrt (by norm_num)
  have hsum : a * a + b * b = 1 := by
    rw [haa, hbb]
    field_simp
    nlinarith [hs5]
  have hprod : (2 / (5 - Real.sqrt 5)) * (2 / (5 + Real.sqrt 5)) = 1 / 5 := by
    rw [div_mul_div_comm]
    rw [show (5 - Real.sqrt 5) * (5 + Real.sqrt 5) = 20 by nlinarith [hs5]]
    norm_num
  have hab : a * b = Real.sqrt (1 / 5) := by
    rw [ha_def, hb_def, ← Real.sqrt_mul (le_of_lt (by positivity)), hprod]
  have hablt : a * b < 1 := by
    rw [hab, Real.sqrt_lt' (by norm_num)]
    norm_num
  intro hcontra
  nlinarith [hsum, hablt, hcontra]
